import Mathlib

/-
Verification of the nestor NES emulator core against its specification.

The Rust sources are shallowly embedded: machine integers (u8/u16/u64/usize)
become Nat with explicit wrapping (% 256, % 65536) exactly where the Rust
code wraps; fixed arrays and Vec buffers become total functions Nat → Nat
(with an explicit length field where the length is observable); code paths
that panic in Rust (unwrap of a missing cartridge, out-of-range slicing,
unimplemented address arms) are modelled with Option/None results.

The CPU (src/nestor/src/cpu.rs) is generic over a bus implementing the
Memory trait; for the CPU-local claims it is instantiated here with a flat
64 KiB RAM (the same instantiation as the repository's own MockBus test
bus), carried as a field mem : Nat → Nat of the CPU state.
-/

set_option maxRecDepth 10000

namespace Nestor

/-! ## CPU model (src/nestor/src/cpu.rs) -/

def CARRY_FLAG : Nat := 1
def ZERO_FLAG : Nat := 2
def IRQ_FLAG : Nat := 4
def DECIMAL_FLAG : Nat := 8
def BREAK_FLAG : Nat := 16
def OVERFLOW_FLAG : Nat := 64
def NEGATIVE_FLAG : Nat := 128

structure CPU where
  register_a : Nat
  register_x : Nat
  register_y : Nat
  processor_status : Nat
  stack_pointer : Nat
  program_counter : Nat
  cycles : Nat
  mem : Nat → Nat

/-- Flat-RAM instance of the Memory trait: reads return a byte, addresses
are 16-bit. -/
def mem_read (m : Nat → Nat) (addr : Nat) : Nat := m (addr % 65536) % 256

def mem_write (m : Nat → Nat) (addr v : Nat) : Nat → Nat :=
  fun q => if q = addr % 65536 then v % 256 else m q

/-- Memory::mem_read_u16: lo at pos, hi at pos.wrapping_add(1). -/
def mem_read_u16 (m : Nat → Nat) (pos : Nat) : Nat :=
  let lo := mem_read m pos
  let hi := mem_read m ((pos + 1) % 65536)
  (hi <<< 8) ||| lo

def get_flag (s : CPU) (flag : Nat) : Bool := s.processor_status &&& flag != 0

/-- CPU::set_flag; !flag on a u8 is the complement inside one byte. -/
def set_flag (s : CPU) (flag : Nat) (b : Bool) : CPU :=
  if b then { s with processor_status := s.processor_status ||| flag }
  else { s with processor_status := s.processor_status &&& (255 ^^^ flag) }

def set_zero_and_negative_flags (s : CPU) (value : Nat) : CPU :=
  let s := set_flag s ZERO_FLAG (value == 0)
  set_flag s NEGATIVE_FLAG ((value &&& 0x80) != 0)

/-- CPU::push_stack: write at 0x0100 + SP, then SP decrements (wrapping). -/
def push_stack (s : CPU) (v : Nat) : CPU :=
  let s := { s with mem := mem_write s.mem (s.stack_pointer + 0x0100) v }
  { s with stack_pointer := (s.stack_pointer + 255) % 256 }

/-- CPU::push_stack16: high byte first, then low byte. -/
def push_stack16 (s : CPU) (v : Nat) : CPU :=
  let s := push_stack s ((v >>> 8) &&& 0xFF)
  push_stack s (v &&& 0xFF)

/-- CPU::php pushes the status with the B (break) flag set. -/
def php (s : CPU) : CPU := push_stack s (s.processor_status ||| BREAK_FLAG)

/-- CPU::interrupt_nmi (src/nestor/src/cpu.rs lines 959-967). -/
def interrupt_nmi (s : CPU) : CPU :=
  let s := push_stack16 s s.program_counter
  let s := php s
  let s := { s with cycles := s.cycles + 7 }
  let s := set_flag s IRQ_FLAG true
  { s with program_counter := mem_read_u16 s.mem 0xFFFA }

inductive AddressingMode where
  | implied
  | accumulator
  | immediate
  | zeroPage
  | zeroPageX
  | zeroPageY
  | absolute
  | absoluteX
  | absoluteY
  | indirect
  | indirectX
  | indirectY
  | relative
  | noneAddressing

def page_cross (addr1 addr2 : Nat) : Bool := addr1 &&& 0xFF00 != addr2 &&& 0xFF00

/-- CPU::get_address_by_addressing_mode; the modes the source panics on
(Accumulator, Relative, NoneAddressing) return none. -/
def get_address_by_addressing_mode (s : CPU) (mode : AddressingMode) (address : Nat) :
    Option (Nat × Bool) :=
  match mode with
  | .immediate | .implied => some (address, false)
  | .zeroPage => some (mem_read s.mem address, false)
  | .absolute => some (mem_read_u16 s.mem address, false)
  | .zeroPageX => some ((mem_read s.mem address + s.register_x) % 256, false)
  | .zeroPageY => some ((mem_read s.mem address + s.register_y) % 256, false)
  | .absoluteX =>
    let base := mem_read_u16 s.mem address
    let addr := (base + s.register_x) % 65536
    some (addr, page_cross base addr)
  | .absoluteY =>
    let base := mem_read_u16 s.mem address
    let addr := (base + s.register_y) % 65536
    some (addr, page_cross base addr)
  | .indirect =>
    let indirect_address := mem_read_u16 s.mem address
    if indirect_address &&& 0x00FF = 0x00FF then
      let lo := mem_read s.mem indirect_address
      let hi := mem_read s.mem (indirect_address &&& 0xFF00)
      some ((hi <<< 8) ||| lo, false)
    else
      some (mem_read_u16 s.mem indirect_address, false)
  | .indirectX =>
    let base := mem_read s.mem address
    let ptr := (base + s.register_x) % 256
    let lo := mem_read s.mem ptr
    let hi := mem_read s.mem ((ptr + 1) % 256)
    some ((hi <<< 8) ||| lo, false)
  | .indirectY =>
    let base := mem_read s.mem address
    let lo := mem_read s.mem base
    let hi := mem_read s.mem ((base + 1) % 256)
    let deref_base := (hi <<< 8) ||| lo
    let deref := (deref_base + s.register_y) % 65536
    some (deref, page_cross deref deref_base)
  | _ => none

def get_operand_address (s : CPU) (mode : AddressingMode) : Option (Nat × Bool) :=
  get_address_by_addressing_mode s mode s.program_counter

/-- CPU::adc. -/
def adc (s : CPU) (mode : AddressingMode) : Option CPU :=
  match get_operand_address s mode with
  | none => none
  | some (addr, pc) =>
    let value := mem_read s.mem addr
    let result0 := s.register_a + value + (if get_flag s CARRY_FLAG then 1 else 0)
    let s := set_flag s CARRY_FLAG (result0 > 255)
    let result := result0 % 256
    let s := set_flag s OVERFLOW_FLAG
      (((s.register_a ^^^ result) &&& (value ^^^ result) &&& 0x80) == 0x80)
    let s := set_zero_and_negative_flags s result
    let s := { s with register_a := result }
    some (if pc then { s with cycles := s.cycles + 1 } else s)

/-- CPU::sbc; overflowing_sub on u8 is mod-256 subtraction plus a borrow
flag. -/
def sbc (s : CPU) (mode : AddressingMode) : Option CPU :=
  match get_operand_address s mode with
  | none => none
  | some (addr, pc) =>
    let value := mem_read s.mem addr
    let accumulator := s.register_a
    let carry_flag := if get_flag s CARRY_FLAG then 1 else 0
    let v1 := (accumulator + 256 - value) % 256
    let o1 := accumulator < value
    let result := (v1 + 256 - (1 - carry_flag)) % 256
    let o2 := v1 < 1 - carry_flag
    let s := set_flag s CARRY_FLAG (!(decide o1 || decide o2))
    let overflow := (accumulator ^^^ result) &&& 0x80 ≠ 0 ∧ (accumulator ^^^ value) &&& 0x80 ≠ 0
    let s := set_flag s OVERFLOW_FLAG (decide overflow)
    let s := { s with register_a := result }
    let s := set_zero_and_negative_flags s s.register_a
    some (if pc then { s with cycles := s.cycles + 1 } else s)

/-! ## C1: NMI entry -/

/-- Concrete CPU state for exercising interrupt_nmi: B flag clear in the
live status, NMI vector 0x1256 at 0xFFFA/0xFFFB. -/
def cpu_nmi_input : CPU :=
  { register_a := 0, register_x := 0, register_y := 0,
    processor_status := 0x20, stack_pointer := 0xFD,
    program_counter := 0x8321, cycles := 100,
    mem := fun a => if a = 0xFFFA then 0x56 else if a = 0xFFFB then 0x12 else 0 }

/-- C1: evaluating NMI entry at a concrete state. The PC high then low
bytes are pushed, IRQ-disable is set, 7 cycles are added and PC is loaded
from the 0xFFFA vector exactly as the claim states, but the status byte
pushed is 0x30 (B flag BIT SET, because interrupt_nmi reuses php) even
though the live status 0x20 has B clear: the claim requires the pushed
status to have the B flag clear, which fails here. -/
theorem c1_nmi_entry_bug :
    (interrupt_nmi cpu_nmi_input).mem 0x01FD = 0x83 ∧
    (interrupt_nmi cpu_nmi_input).mem 0x01FC = 0x21 ∧
    (interrupt_nmi cpu_nmi_input).mem 0x01FB = 0x30 ∧
    0x30 &&& BREAK_FLAG = 0x10 ∧
    cpu_nmi_input.processor_status &&& BREAK_FLAG = 0 ∧
    (interrupt_nmi cpu_nmi_input).processor_status = 0x24 ∧
    (interrupt_nmi cpu_nmi_input).cycles = 107 ∧
    (interrupt_nmi cpu_nmi_input).program_counter = 0x1256 ∧
    (interrupt_nmi cpu_nmi_input).stack_pointer = 0xFA := by
  decide

/-! ## C2: ADC/SBC flag algebra -/

/-- Reference CPU state for the ADC/SBC flag claims: accumulator a, the
immediate operand m at PC, incoming carry c as status bit 0. -/
def alu_input (a m c : Nat) : CPU :=
  { register_a := a, register_x := 0, register_y := 0,
    processor_status := c, stack_pointer := 0xFD,
    program_counter := 0x8000, cycles := 0,
    mem := fun q => if q = 0x8000 then m else 0 }

lemma land_two_pow_eq (x k : Nat) : x &&& 2 ^ k = if x.testBit k then 2 ^ k else 0 := by
  apply Nat.eq_of_testBit_eq
  intro i
  by_cases h : x.testBit k <;> by_cases hk : k = i <;>
    simp_all [Nat.testBit_and, Nat.testBit_two_pow]

lemma land_two_pow_ne_zero (x k : Nat) : x &&& 2 ^ k ≠ 0 ↔ x.testBit k = true := by
  rw [land_two_pow_eq]
  cases h : x.testBit k <;> simp [(Nat.two_pow_pos k).ne']

lemma land_two_pow_eq_self (x k : Nat) : x &&& 2 ^ k = 2 ^ k ↔ x.testBit k = true := by
  rw [land_two_pow_eq]
  cases h : x.testBit k <;> simp [(Nat.two_pow_pos k).ne]

lemma beq128_eq_decide_ne (z : Nat) : ((z &&& 128) == 128) = decide (z &&& 128 ≠ 0) := by
  have h : (128 : Nat) = 2 ^ 7 := by norm_num
  rw [h, land_two_pow_eq]
  cases hb : z.testBit 7 <;> simp [(Nat.two_pow_pos 7).ne, (Nat.two_pow_pos 7).ne']

lemma land_128_ne_zero (x : Nat) : x &&& 128 ≠ 0 ↔ x.testBit 7 = true := by
  have h : (128 : Nat) = 2 ^ 7 := by norm_num
  rw [h, land_two_pow_ne_zero]

lemma land_128_eq_128 (x : Nat) : x &&& 128 = 128 ↔ x.testBit 7 = true := by
  have h : (128 : Nat) = 2 ^ 7 := by norm_num
  rw [h, land_two_pow_eq_self]

lemma land_land_128_ne (p q : Nat) :
    (p &&& q) &&& 128 ≠ 0 ↔ (p &&& 128 ≠ 0 ∧ q &&& 128 ≠ 0) := by
  rw [land_128_ne_zero, land_128_ne_zero, land_128_ne_zero, Nat.testBit_and]
  simp

lemma testBit_255 (k : Nat) : (255 : Nat).testBit k = decide (k < 8) := by
  rw [show (255 : Nat) = 2 ^ 8 - 1 from by norm_num, Nat.testBit_two_pow_sub_one]

lemma land128_eq_zero_iff (x : Nat) : x &&& 128 = 0 ↔ x.testBit 7 = false := by
  rw [show (128 : Nat) = 2 ^ 7 from by norm_num, land_two_pow_eq]
  cases hb : x.testBit 7 <;> simp [(Nat.two_pow_pos 7).ne]

lemma land128_eq_self_iff (x : Nat) : x &&& 128 = 128 ↔ x.testBit 7 = true := by
  rw [show (128 : Nat) = 2 ^ 7 from by norm_num] at *
  exact land_two_pow_eq_self x 7

/-- Reading a single status bit after set_flag with a (possibly different)
single-bit mask, inside one byte. -/
lemma set_flag_status_testBit (s : CPU) (b : Bool) (j k : Nat) (hk : k < 8) :
    (set_flag s (2 ^ j) b).processor_status.testBit k =
      if j = k then b else s.processor_status.testBit k := by
  cases b with
  | true =>
    by_cases h : j = k <;> simp [set_flag, Nat.testBit_or, Nat.testBit_two_pow, h]
  | false =>
    by_cases h : j = k <;>
      simp [set_flag, Nat.testBit_and, Nat.testBit_xor, testBit_255,
        Nat.testBit_two_pow, h, hk]

lemma set_flag_status_testBit_carry (s : CPU) (b : Bool) (k : Nat) (hk : k < 8) :
    (set_flag s CARRY_FLAG b).processor_status.testBit k =
      if 0 = k then b else s.processor_status.testBit k := by
  have h : CARRY_FLAG = 2 ^ 0 := by norm_num [CARRY_FLAG]
  rw [h, set_flag_status_testBit s b 0 k hk]

lemma set_flag_status_testBit_zero (s : CPU) (b : Bool) (k : Nat) (hk : k < 8) :
    (set_flag s ZERO_FLAG b).processor_status.testBit k =
      if 1 = k then b else s.processor_status.testBit k := by
  have h : ZERO_FLAG = 2 ^ 1 := by norm_num [ZERO_FLAG]
  rw [h, set_flag_status_testBit s b 1 k hk]

lemma set_flag_status_testBit_overflow (s : CPU) (b : Bool) (k : Nat) (hk : k < 8) :
    (set_flag s OVERFLOW_FLAG b).processor_status.testBit k =
      if 6 = k then b else s.processor_status.testBit k := by
  have h : OVERFLOW_FLAG = 2 ^ 6 := by norm_num [OVERFLOW_FLAG]
  rw [h, set_flag_status_testBit s b 6 k hk]

lemma set_flag_status_testBit_negative (s : CPU) (b : Bool) (k : Nat) (hk : k < 8) :
    (set_flag s NEGATIVE_FLAG b).processor_status.testBit k =
      if 7 = k then b else s.processor_status.testBit k := by
  have h : NEGATIVE_FLAG = 2 ^ 7 := by norm_num [NEGATIVE_FLAG]
  rw [h, set_flag_status_testBit s b 7 k hk]

lemma set_flag_register_a (s : CPU) (f : Nat) (b : Bool) :
    (set_flag s f b).register_a = s.register_a := by
  cases b <;> simp [set_flag]

lemma get_flag_carry (s : CPU) :
    get_flag s CARRY_FLAG = s.processor_status.testBit 0 := by
  have h : CARRY_FLAG = 2 ^ 0 := by norm_num [CARRY_FLAG]
  rw [get_flag, h]
  rw [land_two_pow_eq]
  cases hb : s.processor_status.testBit 0 <;> simp [(Nat.two_pow_pos 0).ne']

lemma get_flag_zero (s : CPU) :
    get_flag s ZERO_FLAG = s.processor_status.testBit 1 := by
  have h : ZERO_FLAG = 2 ^ 1 := by norm_num [ZERO_FLAG]
  rw [get_flag, h]
  rw [land_two_pow_eq]
  cases hb : s.processor_status.testBit 1 <;> simp [(Nat.two_pow_pos 1).ne']

lemma get_flag_overflow (s : CPU) :
    get_flag s OVERFLOW_FLAG = s.processor_status.testBit 6 := by
  have h : OVERFLOW_FLAG = 2 ^ 6 := by norm_num [OVERFLOW_FLAG]
  rw [get_flag, h]
  rw [land_two_pow_eq]
  cases hb : s.processor_status.testBit 6 <;> simp [(Nat.two_pow_pos 6).ne']

lemma get_flag_negative (s : CPU) :
    get_flag s NEGATIVE_FLAG = s.processor_status.testBit 7 := by
  have h : NEGATIVE_FLAG = 2 ^ 7 := by norm_num [NEGATIVE_FLAG]
  rw [get_flag, h]
  rw [land_two_pow_eq]
  cases hb : s.processor_status.testBit 7 <;> simp [(Nat.two_pow_pos 7).ne']

set_option maxHeartbeats 3200000 in
/-- C2: for every accumulator value a, operand m and incoming carry c, ADC
and SBC leave the accumulator and the carry, overflow, zero and negative
flags exactly as the reference formulas of the claim require (R is the
resulting accumulator; for SBC the carry is the negation of the unsigned
borrow, which occurs iff a < m + (1 - c)). -/
theorem c2_adc_sbc_flags (a m c : Nat) (ha : a < 256) (hm : m < 256) (hc : c < 2) :
    ((adc (alu_input a m c) AddressingMode.immediate).map fun s =>
      (s.register_a, get_flag s CARRY_FLAG, get_flag s OVERFLOW_FLAG,
       get_flag s ZERO_FLAG, get_flag s NEGATIVE_FLAG)) =
      some ((a + m + c) % 256,
            decide (a + m + c > 255),
            decide (((a ^^^ (a + m + c) % 256) &&& (m ^^^ (a + m + c) % 256)) &&& 0x80 ≠ 0),
            decide ((a + m + c) % 256 = 0),
            decide ((a + m + c) % 256 &&& 0x80 ≠ 0))
    ∧ ((sbc (alu_input a m c) AddressingMode.immediate).map fun s =>
      (s.register_a, get_flag s CARRY_FLAG, get_flag s OVERFLOW_FLAG,
       get_flag s ZERO_FLAG, get_flag s NEGATIVE_FLAG)) =
      some ((a + 512 - m - (1 - c)) % 256,
            decide (m + (1 - c) ≤ a),
            decide (((a ^^^ (a + 512 - m - (1 - c)) % 256) &&& (a ^^^ m)) &&& 0x80 ≠ 0),
            decide ((a + 512 - m - (1 - c)) % 256 = 0),
            decide ((a + 512 - m - (1 - c)) % 256 &&& 0x80 ≠ 0)) := by
  have hmm : m % 256 = m := Nat.mod_eq_of_lt hm
  have hcin0 : get_flag (alu_input a m 0) CARRY_FLAG = false := by
    simp [get_flag, alu_input, CARRY_FLAG]
  have hcin1 : get_flag (alu_input a m 1) CARRY_FLAG = true := by
    simp [get_flag, alu_input, CARRY_FLAG]
  interval_cases c <;> refine ⟨?_, ?_⟩ <;>
      simp only [adc, sbc, get_operand_address, get_address_by_addressing_mode, alu_input,
        mem_read, set_zero_and_negative_flags, hcin0, hcin1] <;>
      norm_num [hmm] <;>
      simp (disch := norm_num) only [get_flag_carry, get_flag_zero, get_flag_overflow,
        get_flag_negative, set_flag_status_testBit_carry, set_flag_status_testBit_zero,
        set_flag_status_testBit_overflow, set_flag_status_testBit_negative,
        set_flag_register_a] <;>
      norm_num <;>
      (repeat' apply And.intro) <;>
      all_goals (first
        | rfl
        | omega
        | (rw [Bool.eq_iff_iff]
           simp [land128_eq_zero_iff, land128_eq_self_iff, Nat.testBit_and]
           try omega
           try tauto
           try rw [show (a + 256 - m + 255) % 256 = (a + 512 - m - 1) % 256 from by omega]
           try rw [show (a + 256 - m) % 256 = (a + 512 - m) % 256 from by omega]
           try simp))

/-- C2 witness: the ADC flag characterization applied at a = 200, m = 100,
carry in 1. -/
theorem c2_adc_sbc_flags_witness :
    ((adc (alu_input 200 100 1) AddressingMode.immediate).map fun s =>
      (s.register_a, get_flag s CARRY_FLAG, get_flag s OVERFLOW_FLAG,
       get_flag s ZERO_FLAG, get_flag s NEGATIVE_FLAG)) =
      some ((200 + 100 + 1) % 256,
            decide (200 + 100 + 1 > 255),
            decide (((200 ^^^ (200 + 100 + 1) % 256) &&& (100 ^^^ (200 + 100 + 1) % 256)) &&& 0x80 ≠ 0),
            decide ((200 + 100 + 1) % 256 = 0),
            decide ((200 + 100 + 1) % 256 &&& 0x80 ≠ 0)) :=
  (c2_adc_sbc_flags 200 100 1 (by norm_num) (by norm_num) (by norm_num)).1


/-! ## Joypad model (src/nestor/src/joypad.rs) -/

/-- Joypad state; button_status is the 8-bit flag set in the order
A, B, Select, Start, Up, Down, Left, Right (bit 0 = A). -/
structure Joypad where
  strobe : Bool
  button_index : Nat
  button_status : Nat

/-- Joypad::write: a 1 -> 0 strobe transition resets the read cursor. -/
def joypad_write (j : Joypad) (data : Nat) : Joypad :=
  let new_strobe := data &&& 1 == 1
  let j := if j.strobe && !new_strobe then { j with button_index := 0 } else j
  { j with strobe := new_strobe }

/-- Joypad::read. -/
def joypad_read (j : Joypad) : Nat × Joypad :=
  if j.button_index > 7 then (1, j)
  else
    let response := (j.button_status &&& (1 <<< j.button_index)) >>> j.button_index
    let j := if !j.strobe ∧ j.button_index ≤ 7 then
        { j with button_index := j.button_index + 1 }
      else j
    (response, j)

/-- Outputs of n consecutive reads. -/
def joypad_reads : Joypad → Nat → List Nat
  | _, 0 => []
  | j, n + 1 =>
    let r := joypad_read j
    r.1 :: joypad_reads r.2 n

/-- State after n consecutive reads. -/
def joypad_read_n : Joypad → Nat → Joypad
  | j, 0 => j
  | j, n + 1 => joypad_read_n (joypad_read j).2 n

lemma shift_select (x i : Nat) : (x &&& (1 <<< i)) >>> i = (x >>> i) &&& 1 := by
  have h1 : x &&& (1 <<< i) = if x.testBit i then 2 ^ i else 0 := by
    rw [Nat.one_shiftLeft, land_two_pow_eq]
  have h2 : (x >>> i) &&& 1 = if (x >>> i).testBit 0 then 1 else 0 := by
    have h := land_two_pow_eq (x >>> i) 0
    simpa using h
  rw [h1, h2, Nat.testBit_shiftRight, Nat.add_zero]
  cases hb : x.testBit i <;>
    simp [Nat.shiftRight_eq_div_pow, Nat.div_self (Nat.two_pow_pos i)]

/-! ## C5: joypad read protocol -/

/-- A joypad driven to a reachable state with strobe held high after the
cursor has advanced to 3: button A pressed, strobe sequence 1, 0, three
reads, then 1. -/
def joypad_strobe_high_state : Joypad :=
  joypad_write
    (joypad_read_n
      (joypad_write (joypad_write { strobe := false, button_index := 0, button_status := 1 } 1) 0)
      3)
    1

/-- C5 counterexample: with strobe held high a read returns bit
button_index (here bit 3 = 0), not the current state of the A button
(pressed, bit 0 = 1), contradicting the claim that every read while
strobe is high returns the A button's state. -/
theorem c5_joypad_counterexample :
    joypad_strobe_high_state.strobe = true ∧
    joypad_strobe_high_state.button_status &&& 1 = 1 ∧
    (joypad_read joypad_strobe_high_state).1 = 0 := by
  refine ⟨rfl, rfl, rfl⟩

/-- C5 amended: after a 1 -> 0 strobe transition the next eight reads
return, in order, bit i of the button status, and the ninth and every
subsequent read returns 1 (a read past the end leaves the state
unchanged); while strobe is held high a read never advances the cursor
and returns bit button_index of the current button status (or 1 once the
cursor is past 7) - in particular the A button's state only when the
cursor is at 0. -/
theorem c5_joypad_amended (j : Joypad) (hs : j.button_status < 256) :
    (joypad_reads (joypad_write (joypad_write j 1) 0) 10 =
      [(j.button_status >>> 0) &&& 1, (j.button_status >>> 1) &&& 1,
       (j.button_status >>> 2) &&& 1, (j.button_status >>> 3) &&& 1,
       (j.button_status >>> 4) &&& 1, (j.button_status >>> 5) &&& 1,
       (j.button_status >>> 6) &&& 1, (j.button_status >>> 7) &&& 1, 1, 1]) ∧
    (j.button_index > 7 → joypad_read j = (1, j)) ∧
    (j.strobe = true →
      (joypad_read j).2 = j ∧
      (joypad_read j).1 =
        if j.button_index > 7 then 1 else (j.button_status >>> j.button_index) &&& 1) := by
  refine ⟨?_, ?_, ?_⟩
  · have hww : joypad_write (joypad_write j 1) 0 =
        { strobe := false, button_index := 0, button_status := j.button_status } := by
      simp [joypad_write]
    rw [hww]
    have hgen : ∀ st < 256, joypad_reads { strobe := false, button_index := 0, button_status := st } 10 =
        [(st >>> 0) &&& 1, (st >>> 1) &&& 1, (st >>> 2) &&& 1, (st >>> 3) &&& 1,
         (st >>> 4) &&& 1, (st >>> 5) &&& 1, (st >>> 6) &&& 1, (st >>> 7) &&& 1, 1, 1] := by
      decide
    exact hgen j.button_status hs
  · intro h
    simp [joypad_read, h]
  · intro h
    constructor
    · by_cases hb : j.button_index > 7 <;> simp [joypad_read, hb, h]
    · by_cases hb : j.button_index > 7 <;> simp [joypad_read, hb, h, shift_select]

/-- C5 witness: the amended joypad theorem at a concrete pad with A and
Start pressed. -/
theorem c5_joypad_amended_witness :
    joypad_reads (joypad_write (joypad_write { strobe := false, button_index := 2, button_status := 9 } 1) 0) 10 =
      [(9 >>> 0) &&& 1, (9 >>> 1) &&& 1, (9 >>> 2) &&& 1, (9 >>> 3) &&& 1,
       (9 >>> 4) &&& 1, (9 >>> 5) &&& 1, (9 >>> 6) &&& 1, (9 >>> 7) &&& 1, 1, 1] :=
  (c5_joypad_amended { strobe := false, button_index := 2, button_status := 9 } (by norm_num)).1

/-! ## Frame model (src/nestor/src/ppu/frame.rs) -/

/-- Frame: the Vec pixel buffer is a total function plus its length. -/
structure Frame where
  width : Nat
  data : Nat → Nat
  data_len : Nat

def frame_new (width height : Nat) : Frame :=
  { width := width, data := fun _ => 0, data_len := width * height * 3 }

/-- The largest usize value of the 64-bit build, 2^64 - 1. -/
def USIZE_MAX : Nat := 18446744073709551615

/-- Frame::set_pixel: the offset `y * 3 * self.width + x * 3` and the
bound `base + 2` are computed in usize, so in a debug build each of the
five arithmetic steps panics when it overflows 2^64 - 1, hence none (a
release build would wrap instead; panics are modelled throughout this
file); within usize range the write is bounds-checked against the whole
buffer length only. -/
def set_pixel (f : Frame) (x y : Nat) (rgb : Nat × Nat × Nat) : Option Frame :=
  if y * 3 ≤ USIZE_MAX ∧ y * 3 * f.width ≤ USIZE_MAX ∧ x * 3 ≤ USIZE_MAX ∧
      y * 3 * f.width + x * 3 ≤ USIZE_MAX ∧ y * 3 * f.width + x * 3 + 2 ≤ USIZE_MAX then
    let base := y * 3 * f.width + x * 3
    if base + 2 < f.data_len then
      some { f with data := (fun q =>
        if q = base then rgb.1
        else if q = base + 1 then rgb.2.1
        else if q = base + 2 then rgb.2.2
        else f.data q) }
    else some f
  else none

/-! ## C10: set_pixel safety -/

/-- C10 counterexample: set_pixel does panic for some x and y: at
x = 2^63 the usize product x * 3 overflows, a debug-build panic, so
set_pixel is not total over all of the claim's quantifier. -/
theorem c10_set_pixel_counterexample :
    set_pixel (frame_new 256 240) (2 ^ 63) 0 (1, 2, 3) = none := by
  rfl

/-- C10 amended: whenever the usize offset arithmetic does not
overflow (y * 3 and the final offset + 2 within usize; the remaining
intermediate steps are bounded by these), set_pixel does not panic: it
stores the three RGB bytes at byte offset y*3*width + x*3 exactly when
that offset plus 2 is below the buffer length and otherwise returns the
frame unchanged; and because the check is against the whole buffer
only, an x at or past the frame width lands exactly where pixel
(x - width, y + 1) would. -/
theorem c10_set_pixel (f : Frame) (x y : Nat) (rgb : Nat × Nat × Nat)
    (h1 : y * 3 ≤ USIZE_MAX)
    (h2 : y * 3 * f.width + x * 3 + 2 ≤ USIZE_MAX) :
    (y * 3 * f.width + x * 3 + 2 < f.data_len →
      set_pixel f x y rgb = some { f with data := (fun q =>
        if q = y * 3 * f.width + x * 3 then rgb.1
        else if q = y * 3 * f.width + x * 3 + 1 then rgb.2.1
        else if q = y * 3 * f.width + x * 3 + 2 then rgb.2.2
        else f.data q) }) ∧
    (¬ y * 3 * f.width + x * 3 + 2 < f.data_len → set_pixel f x y rgb = some f) ∧
    ((y + 1) * 3 ≤ USIZE_MAX → f.width ≤ x →
      set_pixel f x y rgb = set_pixel f (x - f.width) (y + 1) rgb) := by
  have hcond : y * 3 ≤ USIZE_MAX ∧ y * 3 * f.width ≤ USIZE_MAX ∧ x * 3 ≤ USIZE_MAX ∧
      y * 3 * f.width + x * 3 ≤ USIZE_MAX ∧ y * 3 * f.width + x * 3 + 2 ≤ USIZE_MAX :=
    ⟨h1, by omega, by omega, by omega, h2⟩
  refine ⟨?_, ?_, ?_⟩
  · intro h
    simp only [set_pixel]
    rw [if_pos hcond, if_pos h]
  · intro h
    simp only [set_pixel]
    rw [if_pos hcond, if_neg h]
  · intro h3 hx
    obtain ⟨k, rfl⟩ := Nat.exists_eq_add_of_le hx
    have hsub : f.width + k - f.width = k := Nat.add_sub_cancel_left f.width k
    have e : (y + 1) * 3 * f.width = y * 3 * f.width + 3 * f.width := by ring
    have hcond' : (y + 1) * 3 ≤ USIZE_MAX ∧ (y + 1) * 3 * f.width ≤ USIZE_MAX ∧
        (f.width + k - f.width) * 3 ≤ USIZE_MAX ∧
        (y + 1) * 3 * f.width + (f.width + k - f.width) * 3 ≤ USIZE_MAX ∧
        (y + 1) * 3 * f.width + (f.width + k - f.width) * 3 + 2 ≤ USIZE_MAX := by
      rw [hsub]
      exact ⟨h3, by omega, by omega, by omega, by omega⟩
    have hbase : y * 3 * f.width + (f.width + k) * 3 =
        (y + 1) * 3 * f.width + (f.width + k - f.width) * 3 := by
      rw [Nat.add_sub_cancel_left]
      ring
    simp only [set_pixel]
    rw [if_pos hcond, if_pos hcond', hbase]

/-- C10 witness: at a 256-wide frame, writing at x = 300 on row 0 lands
where x = 44 on row 1 would. -/
theorem c10_set_pixel_witness :
    set_pixel (frame_new 256 240) 300 0 (1, 2, 3) =
      set_pixel (frame_new 256 240) 44 1 (1, 2, 3) :=
  (c10_set_pixel (frame_new 256 240) 300 0 (1, 2, 3) (by norm_num)
      (by norm_num [frame_new, USIZE_MAX])).2.2
    (by norm_num [USIZE_MAX]) (by norm_num [frame_new])

/-! ## ROM loader model (src/nestor/src/rom.rs) -/

inductive Mirroring where
  | vertical
  | horizontal
  | fourScreen
  | noMirroring

/-- The three Err(String) values returned by the loader, as an enum:
unsupportedFormat for a bad iNES signature, unsupportedVersion for an
iNES 2.0 header, unsupportedMapper n for an unimplemented mapper. -/
inductive RomError where
  | unsupportedFormat
  | unsupportedVersion
  | unsupportedMapper (n : Nat)

inductive HeaderResult where
  | ok (prg_rom_size chr_rom_size : Nat) (mirroring : Mirroring) (mapper_idx : Nat)
  | err (e : RomError)
  | panic

/-- Outcome of ROM::from_bytes: ok carries the PRG and CHR slices, the
mirroring and the mapper index; panic marks an out-of-range slice or
index (a Rust panic). -/
inductive RomResult where
  | ok (prg_rom chr_rom : List Nat) (mirroring : Mirroring) (mapper_idx : Nat)
  | err (e : RomError)
  | panic

def nes_tag : List Nat := [0x4E, 0x45, 0x53, 0x1A]

/-- parse_ines_header; indexing raw[0..4] and raw[4..8] out of range is a
panic. -/
def parse_ines_header (raw : List Nat) : HeaderResult :=
  if raw.length < 4 then .panic
  else if raw.take 4 ≠ nes_tag then .err .unsupportedFormat
  else if raw.length < 8 then .panic
  else if (raw.getD 7 0 >>> 2) &&& 0b11 ≠ 0 then .err .unsupportedVersion
  else
    let prg_rom_size := raw.getD 4 0 * 16384
    let chr_rom_size := raw.getD 5 0 * 8192
    let mirroring :=
      if raw.getD 6 0 &&& 0b1000 ≠ 0 then Mirroring.fourScreen
      else if raw.getD 6 0 &&& 0b1 ≠ 0 then Mirroring.vertical
      else Mirroring.horizontal
    let mapper_idx := (raw.getD 7 0 &&& 0b11110000) ||| (raw.getD 6 0 >>> 4)
    .ok prg_rom_size chr_rom_size mirroring mapper_idx

/-- ROM::from_bytes; the two slice expressions panic when the declared
sizes run past the end of the input, and create_mapper recognises only
mapper indices 0 (NROM) and 3 (CNROM). -/
def from_bytes (raw : List Nat) : RomResult :=
  match parse_ines_header raw with
  | .panic => .panic
  | .err e => .err e
  | .ok prg_rom_size chr_rom_size mirroring mapper_idx =>
    let prg_rom_start := 16 + if raw.getD 6 0 &&& 0b100 ≠ 0 then 512 else 0
    let chr_rom_start := prg_rom_start + prg_rom_size
    if raw.length < prg_rom_start + prg_rom_size then .panic
    else
      let prg_rom := (raw.drop prg_rom_start).take prg_rom_size
      if raw.length < chr_rom_start + chr_rom_size then .panic
      else
        let chr_rom0 := (raw.drop chr_rom_start).take chr_rom_size
        let chr_rom := if chr_rom_size = 0 then List.replicate 8192 0 else chr_rom0
        match mapper_idx with
        | 0 => .ok prg_rom chr_rom mirroring mapper_idx
        | 3 => .ok prg_rom chr_rom mirroring mapper_idx
        | n => .err (.unsupportedMapper n)

/-! ## C9: truncated ROM -/

/-- A valid 16-byte iNES header declaring one 16 KiB PRG bank with no
body bytes at all. -/
def truncated_rom_bytes : List Nat :=
  [0x4E, 0x45, 0x53, 0x1A, 1, 0, 0, 0, 0, 0, 0, 0, 0, 0, 0, 0]

/-- C9 counterexample: loading a ROM whose declared PRG size exceeds the
supplied bytes panics (out-of-range slice); no TruncatedRom error value
exists anywhere in the loader, so the claim that loading returns
TruncatedRom rather than panicking is false. -/
theorem c9_rom_counterexample :
    from_bytes truncated_rom_bytes = RomResult.panic := rfl

/-- C9 amended: for every input whose declared PRG/CHR sizes exceed the
bytes supplied after the header and optional trainer (with a valid
signature and iNES version so that header parsing succeeds), from_bytes
panics via an out-of-range slice; no error value is returned and no
cartridge is constructed. -/
theorem c9_rom_amended (raw : List Nat)
    (hlen : 8 ≤ raw.length)
    (htag : raw.take 4 = nes_tag)
    (hver : (raw.getD 7 0 >>> 2) &&& 0b11 = 0)
    (htrunc : raw.length <
      16 + (if raw.getD 6 0 &&& 0b100 ≠ 0 then 512 else 0)
        + raw.getD 4 0 * 16384 + raw.getD 5 0 * 8192) :
    from_bytes raw = RomResult.panic := by
  have h1 : ¬ raw.length < 4 := by omega
  have h2 : ¬ raw.take 4 ≠ nes_tag := by simp [htag]
  have h3 : ¬ raw.length < 8 := by omega
  have h4 : ¬ ((raw.getD 7 0 >>> 2) &&& 0b11 ≠ 0) := fun hx => hx hver
  simp only [from_bytes, parse_ines_header, if_neg h1, if_neg h2, if_neg h3, if_neg h4]
  by_cases hp : raw.length <
      (16 + if raw.getD 6 0 &&& 0b100 ≠ 0 then 512 else 0) + raw.getD 4 0 * 16384
  · rw [if_pos hp]
  · have hc : raw.length <
        (16 + if raw.getD 6 0 &&& 0b100 ≠ 0 then 512 else 0) + raw.getD 4 0 * 16384
          + raw.getD 5 0 * 8192 := by
      by_cases hs : raw.getD 6 0 &&& 0b100 ≠ 0
      · rw [if_pos hs] at htrunc ⊢; omega
      · rw [if_neg hs] at htrunc ⊢; omega
    rw [if_neg hp, if_pos hc]

/-- C9 witness: the amended theorem at a header that declares a trainer
and one 8 KiB CHR bank but supplies no body. -/
theorem c9_rom_amended_witness :
    from_bytes [0x4E, 0x45, 0x53, 0x1A, 0, 1, 4, 0, 0, 0, 0, 0, 0, 0, 0, 0] = RomResult.panic :=
  c9_rom_amended [0x4E, 0x45, 0x53, 0x1A, 0, 1, 4, 0, 0, 0, 0, 0, 0, 0, 0, 0]
    (by norm_num) rfl rfl (by norm_num)

/-! ## PPU register files

The register submodules (src/nestor/src/ppu/control.rs, mask.rs,
status.rs, addr.rs, scroll.rs) are not part of the provided sources, so
they are modelled from the spec (spec-modelled: the ppu register module
files are absent from src/); each register is a plain byte with the
standard bit layout given in spec section 4.6. -/

/-- Modelled from the spec: PPUCTRL is one byte; bit 2 selects the VRAM
increment (32 when set, else 1), bit 3 the sprite pattern table, bit 4
the background pattern table, bit 5 the sprite size (16 when set, else
8), bit 7 NMI enable (spec-modelled: control.rs absent from src/). -/
structure ControlRegister where
  value : Nat

def ControlRegister.new : ControlRegister := ⟨0⟩

def ControlRegister.update (r : ControlRegister) (data : Nat) : ControlRegister := ⟨data⟩

def ControlRegister.vram_addr_increment (r : ControlRegister) : Nat :=
  if r.value &&& 0x04 ≠ 0 then 32 else 1

def ControlRegister.sprt_pattern_addr (r : ControlRegister) : Nat :=
  if r.value &&& 0x08 ≠ 0 then 0x1000 else 0

def ControlRegister.bknd_pattern_addr (r : ControlRegister) : Nat :=
  if r.value &&& 0x10 ≠ 0 then 0x1000 else 0

def ControlRegister.sprite_size (r : ControlRegister) : Nat :=
  if r.value &&& 0x20 ≠ 0 then 16 else 8

def ControlRegister.generate_vblank_nmi (r : ControlRegister) : Bool :=
  r.value &&& 0x80 != 0

/-- Modelled from the spec: PPUMASK is one byte; bit 0 grayscale, bit 1
show background in the leftmost 8 pixels, bit 2 show sprites in the
leftmost 8 pixels, bit 3 show background, bit 4 show sprites
(spec-modelled: mask.rs absent from src/). -/
structure MaskRegister where
  value : Nat

def MaskRegister.new : MaskRegister := ⟨0⟩

def MaskRegister.update (r : MaskRegister) (data : Nat) : MaskRegister := ⟨data⟩

def MaskRegister.is_grayscale (r : MaskRegister) : Bool := r.value &&& 0x01 != 0

def MaskRegister.leftmost_8pxl_background (r : MaskRegister) : Bool := r.value &&& 0x02 != 0

def MaskRegister.leftmost_8pxl_sprite (r : MaskRegister) : Bool := r.value &&& 0x04 != 0

def MaskRegister.show_background (r : MaskRegister) : Bool := r.value &&& 0x08 != 0

def MaskRegister.show_sprites (r : MaskRegister) : Bool := r.value &&& 0x10 != 0

def MaskRegister.rendering_enabled (r : MaskRegister) : Bool :=
  r.show_background || r.show_sprites

/-- Modelled from the spec: PPUSTATUS is one byte; bit 5 sprite
overflow, bit 6 sprite zero hit, bit 7 vblank (spec-modelled: status.rs
absent from src/). -/
structure StatusRegister where
  value : Nat

def StatusRegister.new : StatusRegister := ⟨0⟩

def StatusRegister.set_sprite_overflow (r : StatusRegister) (b : Bool) : StatusRegister :=
  ⟨if b then r.value ||| 0x20 else r.value &&& (255 ^^^ 0x20)⟩

def StatusRegister.set_sprite_zero_hit (r : StatusRegister) (b : Bool) : StatusRegister :=
  ⟨if b then r.value ||| 0x40 else r.value &&& (255 ^^^ 0x40)⟩

def StatusRegister.set_vblank_status (r : StatusRegister) (b : Bool) : StatusRegister :=
  ⟨if b then r.value ||| 0x80 else r.value &&& (255 ^^^ 0x80)⟩

def StatusRegister.reset_vblank_status (r : StatusRegister) : StatusRegister :=
  ⟨r.value &&& (255 ^^^ 0x80)⟩

def StatusRegister.is_in_vblank (r : StatusRegister) : Bool := r.value &&& 0x80 != 0

def StatusRegister.snapshot (r : StatusRegister) : Nat := r.value

/-- Modelled from the spec: the PPUADDR two-write latch (spec-modelled:
addr.rs absent from src/); no claim observes this register, the VRAM
pointer consulted by PPUDATA is the internal register v. -/
structure AddrRegister where
  value : Nat
  hi_ptr : Bool

def AddrRegister.new : AddrRegister := ⟨0, true⟩

def AddrRegister.update (r : AddrRegister) (data : Nat) : AddrRegister :=
  if r.hi_ptr then ⟨(((data &&& 0x3F) <<< 8) ||| (r.value &&& 0xFF)) &&& 0x3FFF, false⟩
  else ⟨((r.value &&& 0xFF00) ||| data) &&& 0x3FFF, true⟩

def AddrRegister.increment (r : AddrRegister) (inc : Nat) : AddrRegister :=
  ⟨(r.value + inc) % 0x4000, r.hi_ptr⟩

def AddrRegister.reset_latch (r : AddrRegister) : AddrRegister := ⟨r.value, true⟩

/-- Modelled from the spec: the PPUSCROLL two-write latch
(spec-modelled: scroll.rs absent from src/); no claim observes this
register, scrolling state lives in t / fine_x / w. -/
structure ScrollRegister where
  x : Nat
  y : Nat
  latch : Bool

def ScrollRegister.new : ScrollRegister := ⟨0, 0, false⟩

def ScrollRegister.write (r : ScrollRegister) (data : Nat) : ScrollRegister :=
  if !r.latch then { r with x := data, latch := true }
  else { r with y := data, latch := false }

def ScrollRegister.reset_latch (r : ScrollRegister) : ScrollRegister :=
  { r with latch := false }

/-! ## Sprite (src/src/ppu/sprite.rs) -/

structure Sprite where
  tile : Nat
  attr : Nat
  x : Nat
  y : Nat
  is_sprite_0 : Bool

/-- Sprite::from on the four OAM entry bytes (from is a Lean keyword). -/
def Sprite.from_entry (d0 d1 d2 d3 : Nat) (is0 : Bool) : Sprite :=
  { y := d0 + 1, tile := d1, attr := d2, x := d3, is_sprite_0 := is0 }

def Sprite.flip_v (s : Sprite) : Bool := s.attr &&& 0x80 == 0x80

def Sprite.flip_h (s : Sprite) : Bool := s.attr &&& 0x40 == 0x40

def Sprite.priority (s : Sprite) : Bool := s.attr &&& 0x20 != 0x20

def Sprite.palette (s : Sprite) : Nat := (s.attr &&& 0x3) + 0x04

def Sprite.pattern_table_8x16 (s : Sprite) : Nat := (s.tile &&& 0x01) * 0x1000

def Sprite.tile_number_8x16 (s : Sprite) : Nat := s.tile &&& 0xFE

/-! ## Mapper (src/nestor/src/mappers/nrom.rs)

The dynamic `Box<dyn Mapper>` is instantiated at the NROM mapper; the
two Vec fields are total functions plus lengths; a Vec index out of
range (or a modulus by a zero length) is a panic, hence none. -/

structure Mapper where
  chr_len : Nat
  chr : Nat → Nat
  prg_len : Nat
  prg : Nat → Nat

def Mapper.read (m : Mapper) (address : Nat) : Option Nat :=
  if address ≤ 0x1FFF then
    if m.chr_len = 0 then none else some (m.chr (address % m.chr_len))
  else if 0x8000 ≤ address ∧ address ≤ 0xFFFF then
    let bank := if m.prg_len > 0x4000 then address &&& 0x7FFF else address &&& 0x3FFF
    if bank < m.prg_len then some (m.prg bank) else none
  else some 0

def Mapper.write (m : Mapper) (address val : Nat) : Option Mapper :=
  if address ≤ 0x1FFF then
    if m.chr_len = 0 then none
    else some { m with chr := fun q => if q = address % m.chr_len then val else m.chr q }
  else if 0x6000 ≤ address ∧ address ≤ 0x7FFF then
    if address - 0x6000 < m.prg_len then
      some { m with prg := fun q => if q = address - 0x6000 then val else m.prg q }
    else none
  else some m

/-- The Rom object seen by the PPU: its mirroring plus its mapper. The
source shares one Arc-Mutex Rom between Bus and PPU; here the Bus holds
its own copy of the mapper, which no claim can observe since no claim
interleaves CPU-side mapper writes with PPU-side mapper reads. -/
structure RomM where
  mirroring : Mirroring
  mapper : Mapper

/-! ## PPU state (src/nestor/src/ppu.rs) -/

inductive ScanlineKind where
  | preRender
  | visible
  | postRender
  | vblank
deriving DecidableEq

/-- Scanline::from; the panic on an out-of-range scanline is none. -/
def scanline_from (scanline : Nat) : Option ScanlineKind :=
  if scanline = 261 then some .preRender
  else if scanline ≤ 239 then some .visible
  else if scanline = 240 then some .postRender
  else if 241 ≤ scanline ∧ scanline ≤ 260 then some .vblank
  else none

structure PPU where
  rom : Option RomM
  vram : Nat → Nat
  palette_table : Nat → Nat
  oam_data : Nat → Nat
  secondary_oam_data : List (Option Sprite)
  oam_addr : Nat
  scanline : Nat
  cycle : Nat
  frame_count : Nat
  mask : MaskRegister
  addr : AddrRegister
  ctrl : ControlRegister
  scroll : ScrollRegister
  status : StatusRegister
  v : Nat
  t : Nat
  fine_x : Nat
  w : Bool
  vram_buffer : Nat
  nametable_byte : Nat
  attribute_byte : Nat
  bg_tile_lo : Nat
  bg_tile_hi : Nat
  bg_shifter_pattern_lo : Nat
  bg_shifter_pattern_hi : Nat
  sprite_shifter_pattern_lo : Nat → Nat
  sprite_shifter_pattern_hi : Nat → Nat
  bg_shifter_attrib_lo : Nat
  bg_shifter_attrib_hi : Nat
  nmi_interrupt : Option Nat
  suppress_vbl : Bool
  data_bus : Nat
  odd_frame : Bool
  frame : Frame

/-- PPU::new. -/
def PPU.new : PPU :=
  { rom := none
    vram := fun _ => 0
    palette_table := fun _ => 0
    oam_data := fun _ => 0xFF
    secondary_oam_data := List.replicate 8 none
    oam_addr := 0
    scanline := 0
    cycle := 0
    frame_count := 0
    mask := MaskRegister.new
    addr := AddrRegister.new
    ctrl := ControlRegister.new
    scroll := ScrollRegister.new
    status := StatusRegister.new
    v := 0
    t := 0
    fine_x := 0
    w := false
    vram_buffer := 0
    nametable_byte := 0
    attribute_byte := 0
    bg_tile_lo := 0
    bg_tile_hi := 0
    bg_shifter_pattern_lo := 0
    bg_shifter_pattern_hi := 0
    sprite_shifter_pattern_lo := fun _ => 0
    sprite_shifter_pattern_hi := fun _ => 0
    bg_shifter_attrib_lo := 0
    bg_shifter_attrib_hi := 0
    nmi_interrupt := none
    suppress_vbl := false
    data_bus := 0
    odd_frame := false
    frame := frame_new 256 240 }

/-- PPU::increment_vram_addr. -/
def increment_vram_addr (p : PPU) : PPU :=
  { p with addr := p.addr.increment p.ctrl.vram_addr_increment
           v := (p.v + p.ctrl.vram_addr_increment) % 65536 }

/-- PPU::increment_x (coarse X increment of v). -/
def increment_x (p : PPU) : PPU :=
  if p.mask.show_background then
    if p.v &&& 0x001f = 31 then
      { p with v := (p.v &&& (0xFFFF ^^^ 0x001f)) ^^^ 0x0400 }
    else
      { p with v := p.v + 1 }
  else p

/-- PPU::increment_y (fine/coarse Y increment of v). -/
def increment_y (p : PPU) : PPU :=
  if p.mask.show_background then
    if p.v &&& 0x7000 ≠ 0x7000 then { p with v := p.v + 0x1000 }
    else
      let v1 := p.v &&& (0xFFFF ^^^ 0x7000)
      let y := (v1 &&& 0x03E0) >>> 5
      let yv : Nat × Nat :=
        if y = 29 then (0, v1 ^^^ 0x0800)
        else if y = 31 then (0, v1)
        else (y + 1, v1)
      { p with v := (yv.2 &&& (0xFFFF ^^^ 0x03E0)) ||| (yv.1 <<< 5) }
  else p

/-- PPU::transfer_x. -/
def transfer_x (p : PPU) : PPU :=
  if p.mask.show_background then
    { p with v := (p.v &&& 0x7BE0) ||| (p.t &&& 0x041F) }
  else p

/-- PPU::transfer_y. -/
def transfer_y (p : PPU) : PPU :=
  if p.mask.show_background then
    { p with v := (p.v &&& 0x041F) ||| (p.t &&& 0x7BE0) }
  else p

/-- PPU::mirror_nametable; the rom unwrap is a none on a missing rom. -/
def mirror_nametable (p : PPU) (addr : Nat) : Option Nat := do
  let rom ← p.rom
  let mirrored_vram := addr &&& 0x0FFF
  let nametable_index := mirrored_vram / 0x400
  some (match rom.mirroring, nametable_index with
    | .vertical, 2 | .vertical, 3 => mirrored_vram - 0x800
    | .horizontal, 1 | .horizontal, 2 => mirrored_vram - 0x400
    | .horizontal, 3 => mirrored_vram - 0x800
    | _, _ => mirrored_vram)

/-- PPU::mirror_palette. -/
def mirror_palette (address : Nat) : Nat :=
  let address := address % 0x20
  if address = 0x10 ∨ address = 0x14 ∨ address = 0x18 ∨ address = 0x1C then address - 0x10
  else address

/-- PPU::mem_read; the rom unwrap and the panic arm are none. -/
def ppu_mem_read (p : PPU) (address : Nat) : Option Nat :=
  if address ≤ 0x1fff then do
    let rom ← p.rom
    rom.mapper.read address
  else if address ≤ 0x3eff then do
    let a ← mirror_nametable p address
    some (p.vram a)
  else if address ≤ 0x3fff then some (p.palette_table (mirror_palette address))
  else none

/-- PPU::mem_write; the 0x3000-0x3eff unimplemented arm and the panic
arm are none. -/
def ppu_mem_write (p : PPU) (address data : Nat) : Option PPU :=
  if address ≤ 0x1fff then do
    let rom ← p.rom
    let m ← rom.mapper.write address data
    some { p with rom := some { rom with mapper := m } }
  else if address ≤ 0x2fff then do
    let a ← mirror_nametable p address
    some { p with vram := fun q => if q = a then data else p.vram q }
  else if address ≤ 0x3eff then none
  else if address ≤ 0x3fff then
    some { p with palette_table :=
      fun q => if q = mirror_palette address then data else p.palette_table q }
  else none

/-- PPU::fetch_nametable_byte. -/
def fetch_nametable_byte (p : PPU) : Option Nat :=
  ppu_mem_read p (0x2000 ||| (p.v &&& 0x0FFF))

/-- PPU::fetch_attribute_table_byte. -/
def fetch_attribute_table_byte (p : PPU) : Option Nat := do
  let addr := 0x23c0 ||| (p.v &&& 0x0C00) ||| ((p.v >>> 4) &&& 0x38) ||| ((p.v >>> 2) &&& 0x07)
  let attr_byte ← ppu_mem_read p addr
  let shift := ((p.v >>> 4) &&& 4) ||| (p.v &&& 2)
  some ((attr_byte >>> shift) &&& 3)

/-- PPU::fetch_bg_tile_lo. -/
def fetch_bg_tile_lo (p : PPU) : Option Nat :=
  ppu_mem_read p (p.ctrl.bknd_pattern_addr + ((p.v >>> 12) &&& 7) + p.nametable_byte * 16)

/-- PPU::fetch_bg_tile_high. -/
def fetch_bg_tile_high (p : PPU) : Option Nat :=
  ppu_mem_read p (p.ctrl.bknd_pattern_addr + ((p.v >>> 12) &&& 7) + p.nametable_byte * 16 + 8)

/-- PPU::load_shift_registers. -/
def load_shift_registers (p : PPU) : PPU :=
  { p with
    bg_shifter_pattern_lo := (p.bg_shifter_pattern_lo &&& 0xFF00) ||| p.bg_tile_lo
    bg_shifter_pattern_hi := (p.bg_shifter_pattern_hi &&& 0xFF00) ||| p.bg_tile_hi
    bg_shifter_attrib_lo := (p.bg_shifter_attrib_lo &&& 0xFF00) |||
      (if p.attribute_byte &&& 0b01 ≠ 0 then 0xFF else 0x00)
    bg_shifter_attrib_hi := (p.bg_shifter_attrib_hi &&& 0xFF00) |||
      (if p.attribute_byte &&& 0b10 ≠ 0 then 0xFF else 0x00) }

/-- The sprite loop of PPU::update_shift_registers: each live sprite
either counts down its x or shifts its pattern shifters (u8 shifts wrap
at 256). -/
def shift_sprites : List (Option Sprite) → Nat → (Nat → Nat) → (Nat → Nat) →
    List (Option Sprite) × ((Nat → Nat) × (Nat → Nat))
  | [], _, lo, hi => ([], lo, hi)
  | none :: rest, i, lo, hi =>
    let r := shift_sprites rest (i + 1) lo hi
    (none :: r.1, r.2)
  | some s :: rest, i, lo, hi =>
    if s.x > 0 then
      let r := shift_sprites rest (i + 1) lo hi
      (some { s with x := s.x - 1 } :: r.1, r.2)
    else
      let r := shift_sprites rest (i + 1)
        (fun q => if q = i then (lo i <<< 1) % 256 else lo q)
        (fun q => if q = i then (hi i <<< 1) % 256 else hi q)
      (some s :: r.1, r.2)

/-- PPU::update_shift_registers (u16 shifts wrap at 65536). -/
def update_shift_registers (p : PPU) : PPU :=
  let p :=
    if p.mask.show_background then
      { p with bg_shifter_pattern_lo := (p.bg_shifter_pattern_lo <<< 1) % 65536
               bg_shifter_pattern_hi := (p.bg_shifter_pattern_hi <<< 1) % 65536
               bg_shifter_attrib_lo := (p.bg_shifter_attrib_lo <<< 1) % 65536
               bg_shifter_attrib_hi := (p.bg_shifter_attrib_hi <<< 1) % 65536 }
    else p
  if p.mask.show_sprites ∧ 2 ≤ p.cycle ∧ p.cycle < 258 then
    let r := shift_sprites p.secondary_oam_data 0
      p.sprite_shifter_pattern_lo p.sprite_shifter_pattern_hi
    { p with secondary_oam_data := r.1
             sprite_shifter_pattern_lo := r.2.1
             sprite_shifter_pattern_hi := r.2.2 }
  else p

/-- PPU::fetch_internal_registers. -/
def fetch_internal_registers (p : PPU) : Option PPU :=
  match p.cycle % 8 with
  | 1 => do
    let p := load_shift_registers p
    let nb ← fetch_nametable_byte p
    some { p with nametable_byte := nb }
  | 3 => do
    let ab ← fetch_attribute_table_byte p
    some { p with attribute_byte := ab }
  | 5 => do
    let b ← fetch_bg_tile_lo p
    some { p with bg_tile_lo := b }
  | 7 => do
    let b ← fetch_bg_tile_high p
    some { p with bg_tile_hi := b }
  | 0 => some (increment_x p)
  | _ => some p

/-- The n-loop of PPU::sprite_evaluation, with fuel counting the
remaining iterations (the source iterates n from 0 to 63, so the top
call passes fuel 64 and n 0); returns the collected secondary OAM list
and whether the overflow break was taken. -/
def sprite_scan (oam : Nat → Nat) (sprite_size next_scanline : Nat) :
    Nat → Nat → Nat → List (Option Sprite) × Bool
  | 0, _, _ => ([], false)
  | fuel + 1, n, count =>
    let sprite_y := oam (n * 4) + 1
    if sprite_y ≤ next_scanline ∧ next_scanline - sprite_y < sprite_size then
      if 8 ≤ count then ([], true)
      else
        let s := Sprite.from_entry (oam (n * 4)) (oam (n * 4 + 1)) (oam (n * 4 + 2))
          (oam (n * 4 + 3)) (n == 0)
        let r := sprite_scan oam sprite_size next_scanline fuel (n + 1) (count + 1)
        (some s :: r.1, r.2)
    else sprite_scan oam sprite_size next_scanline fuel (n + 1) count

/-- PPU::sprite_evaluation. -/
def sprite_evaluation (p : PPU) : PPU :=
  if p.mask.rendering_enabled then
    let r := sprite_scan p.oam_data p.ctrl.sprite_size (p.scanline + 1) 64 0 0
    let p := { p with secondary_oam_data := r.1 }
    if r.2 then { p with status := p.status.set_sprite_overflow true } else p
  else p

/-- PPU::read_pattern. -/
def read_pattern (p : PPU) (base tile_no fine_y : Nat) : Option (Nat × Nat) := do
  let tile_offset := tile_no * 16 + fine_y
  let lo ← ppu_mem_read p (base + tile_offset)
  let hi ← ppu_mem_read p (base + tile_offset + 8)
  some (lo, hi)

/-- PPU::flip_byte. -/
def flip_byte (b : Nat) : Nat :=
  let b := ((b &&& 0xF0) >>> 4) ||| ((b &&& 0x0F) <<< 4)
  let b := ((b &&& 0xCC) >>> 2) ||| ((b &&& 0x33) <<< 2)
  ((b &&& 0xAA) >>> 1) ||| ((b &&& 0x55) <<< 1)

/-- The sprite loop of PPU::load_sprites, threading the two shifter
arrays; the u16 subtraction next_scanline - sprite.y and the u8
subtraction (sprite_height - 1) - fine_y are debug-mode panics on
underflow, hence none (the as-u8 cast of the former truncates mod
256). -/
def load_sprites_go (p : PPU) (next_scanline : Nat) :
    List (Option Sprite) → Nat → (Nat → Nat) → (Nat → Nat) →
    Option ((Nat → Nat) × (Nat → Nat))
  | [], _, lo, hi => some (lo, hi)
  | none :: rest, i, lo, hi => load_sprites_go p next_scanline rest (i + 1) lo hi
  | some s :: rest, i, lo, hi => do
    let sprite_height := p.ctrl.sprite_size
    let d ← if s.y ≤ next_scanline then some ((next_scanline - s.y) % 256) else none
    let fy ← if s.flip_v then
        (if d ≤ sprite_height - 1 then some (sprite_height - 1 - d) else none)
      else some d
    let ptf : Nat × Nat × Nat :=
      if sprite_height = 16 then
        (s.pattern_table_8x16, s.tile_number_8x16 + (if fy > 7 then 1 else 0),
          fy - (if fy > 7 then 8 else 0))
      else (p.ctrl.sprt_pattern_addr, s.tile, fy)
    let pat ← read_pattern p ptf.1 ptf.2.1 ptf.2.2
    let pat := if s.flip_h then (flip_byte pat.1, flip_byte pat.2) else pat
    load_sprites_go p next_scanline rest (i + 1)
      (fun q => if q = i then pat.1 else lo q)
      (fun q => if q = i then pat.2 else hi q)

/-- PPU::load_sprites. -/
def load_sprites (p : PPU) : Option PPU :=
  if p.mask.show_sprites then do
    let r ← load_sprites_go p (p.scanline + 1) p.secondary_oam_data 0
      p.sprite_shifter_pattern_lo p.sprite_shifter_pattern_hi
    some { p with sprite_shifter_pattern_lo := r.1, sprite_shifter_pattern_hi := r.2 }
  else some p

/-- PPU::render_background. -/
def render_background (p : PPU) : Nat × Nat :=
  if p.mask.show_background ∧ (8 ≤ p.cycle ∨ p.mask.leftmost_8pxl_background) then
    let bit_mux := 0x8000 >>> p.fine_x
    let bg_pixel := ((if p.bg_shifter_pattern_hi &&& bit_mux > 0 then 1 else 0) <<< 1) |||
      (if p.bg_shifter_pattern_lo &&& bit_mux > 0 then 1 else 0)
    let bg_palette := ((if p.bg_shifter_attrib_hi &&& bit_mux > 0 then 1 else 0) <<< 1) |||
      (if p.bg_shifter_attrib_lo &&& bit_mux > 0 then 1 else 0)
    (bg_pixel, bg_palette)
  else (0, 0)

/-- The sprite loop of PPU::render_foreground: the accumulator is
(fg_pixel, fg_palette, fg_priority, is_sprite_0), updated at each
x = 0 sprite and returned at the first non-transparent one. -/
def fg_scan (lo hi : Nat → Nat) :
    List (Option Sprite) → Nat → Nat × Nat × Bool × Bool → Nat × Nat × Bool × Bool
  | [], _, acc => acc
  | none :: rest, i, acc => fg_scan lo hi rest (i + 1) acc
  | some s :: rest, i, acc =>
    if s.x = 0 then
      let fg_pixel := ((if hi i &&& 0x80 > 0 then 1 else 0) <<< 1) |||
        (if lo i &&& 0x80 > 0 then 1 else 0)
      let acc2 := (fg_pixel, s.palette, s.priority, s.is_sprite_0)
      if fg_pixel ≠ 0 then acc2 else fg_scan lo hi rest (i + 1) acc2
    else fg_scan lo hi rest (i + 1) acc

/-- PPU::render_foreground. -/
def render_foreground (p : PPU) : Nat × Nat × Bool × Bool :=
  if p.mask.show_sprites ∧ (8 ≤ p.cycle ∨ p.mask.leftmost_8pxl_sprite) then
    fg_scan p.sprite_shifter_pattern_lo p.sprite_shifter_pattern_hi
      p.secondary_oam_data 0 (0, 0, false, false)
  else (0, 0, false, false)

/-- PPU::fetch_color_from_palette. -/
def fetch_color_from_palette (p : PPU) (palette pixel : Nat) : Option Nat :=
  ppu_mem_read p (0x3F00 + palette * 4 + pixel)

/-- Modelled from the spec: the fixed 64-entry system palette of
src/nestor/src/ppu/palette.rs (spec-modelled: palette.rs absent from
src/); the spec does not list the RGB entries and no claim depends on
the colour values, so an arbitrary total table stands in. Indexing it
above 63 is an array panic in the source, checked at the call site. -/
def SYSTEM_PALETTE (i : Nat) : Nat × Nat × Nat := (i % 64, i % 64, i % 64)

/-- PPU::render_pixel; the final branch of the if chain is reached
exactly when both pixels are non-zero, and the system-palette index
bound (64 entries) is the array panic check. -/
def render_pixel (p : PPU) : Option PPU := do
  let bg := render_background p
  let fg := render_foreground p
  let ppp : Nat × Nat × PPU :=
    if bg.1 = 0 ∧ fg.1 = 0 then (0, 0, p)
    else if bg.1 = 0 ∧ fg.1 > 0 then (fg.1, fg.2.1, p)
    else if bg.1 > 0 ∧ fg.1 = 0 then (bg.1, bg.2, p)
    else
      let pr := if fg.2.2.1 then (fg.1, fg.2.1) else (bg.1, bg.2)
      let p := if p.mask.rendering_enabled ∧ p.cycle ≠ 255 then
          { p with status := p.status.set_sprite_zero_hit fg.2.2.2 }
        else p
      (pr.1, pr.2, p)
  let p := ppp.2.2
  let color ← fetch_color_from_palette p ppp.2.1 ppp.1
  let color := if p.mask.is_grayscale then color &&& 0x30 else color
  if color < 64 then do
    let fr ← set_pixel p.frame (p.cycle - 1) p.scanline (SYSTEM_PALETTE color)
    some { p with frame := fr }
  else none

/-- PPU::cpu_read; port constants 0x2000-0x2007 are inlined. -/
def ppu_cpu_read (p : PPU) (address : Nat) : Option (Nat × PPU) :=
  if address = 0x2000 ∨ address = 0x2001 ∨ address = 0x2003 ∨
      address = 0x2005 ∨ address = 0x2006 then
    some (p.data_bus, p)
  else if address = 0x2002 then
    let data := (p.status.snapshot &&& 0xE0) ||| (p.data_bus &&& 0x1f)
    let p := { p with status := p.status.reset_vblank_status
                      scroll := p.scroll.reset_latch
                      addr := p.addr.reset_latch
                      w := false }
    let p := if p.scanline = 241 ∧ p.cycle = 0 then { p with suppress_vbl := true } else p
    some (data, { p with data_bus := p.data_bus ||| (data &&& 0xE0) })
  else if address = 0x2004 then some (p.oam_data p.oam_addr, p)
  else if address = 0x2007 then
    let address' := p.v &&& 0x3fff
    let p := increment_vram_addr p
    if 0x3F00 ≤ address' then do
      let a ← mirror_nametable p address'
      let p := { p with vram_buffer := p.vram a }
      let r ← ppu_mem_read p address'
      some (r, p)
    else do
      let result := p.vram_buffer
      let nv ← ppu_mem_read p address'
      some (result, { p with vram_buffer := nv })
  else if h : 0x2008 ≤ address ∧ address ≤ 0x3FFF then
    ppu_cpu_read p (address &&& 0x2007)
  else some (0, p)
termination_by address
decreasing_by
  have h2 : address &&& 0x2007 ≤ 0x2007 := Nat.and_le_right
  omega

/-- PPU::cpu_write; port constants 0x2000-0x2007 are inlined, and the
final panic arm is none. -/
def ppu_cpu_write (p0 : PPU) (address data : Nat) : Option PPU :=
  let p := { p0 with data_bus := data }
  if address = 0x2000 then
    let before_nmi_status := p.ctrl.generate_vblank_nmi
    let p := { p with ctrl := p.ctrl.update data
                      t := (p.t &&& 0xF3FF) ||| ((data &&& 0x03) <<< 10) }
    if !before_nmi_status ∧ p.ctrl.generate_vblank_nmi ∧ p.status.is_in_vblank then
      some { p with nmi_interrupt := some 1 }
    else some p
  else if address = 0x2001 then some { p with mask := p.mask.update data }
  else if address = 0x2002 then some p
  else if address = 0x2003 then some { p with oam_addr := data }
  else if address = 0x2004 then
    some { p with oam_data := fun q => if q = p.oam_addr then data else p.oam_data q
                  oam_addr := (p.oam_addr + 1) % 256 }
  else if address = 0x2005 then
    let p := { p with scroll := p.scroll.write data }
    if !p.w then
      some { p with t := (p.t &&& 0x7FE0) ||| (data >>> 3)
                    fine_x := data &&& 0x07
                    w := true }
    else
      some { p with t := (p.t &&& 0x0C1F) ||| ((data &&& 0x07) <<< 12) ||| ((data &&& 0xF8) <<< 2)
                    w := false }
  else if address = 0x2006 then
    let p := { p with addr := p.addr.update data }
    if !p.w then
      some { p with t := (p.t &&& 0x00FF) ||| ((data &&& 0x3F) <<< 8), w := true }
    else
      let t2 := (p.t &&& 0xFF00) ||| data
      some { p with t := t2, v := t2, w := false }
  else if address = 0x2007 then do
    let address' := p.v &&& 0x3fff
    let p ← ppu_mem_write p address' data
    if p.mask.show_background ∧ (p.scanline < 240 ∨ p.scanline = 261) then
      some (increment_y (increment_x p))
    else some (increment_vram_addr p)
  else if h : 0x2008 ≤ address ∧ address ≤ 0x3FFF then
    ppu_cpu_write p0 (address &&& 0x2007) data
  else none
termination_by address
decreasing_by
  have h2 : address &&& 0x2007 ≤ 0x2007 := Nat.and_le_right
  omega

/-- The per-dot body of PPU::tick (everything before the cycle/scanline
advance), dispatched on the scanline kind and the current cycle. -/
def ppu_tick_step (p : PPU) (sl : ScanlineKind) : Option PPU :=
  if p.cycle = 0 then some p
  else match sl with
  | .preRender =>
    if p.cycle ≤ 256 then do
      let p := if p.cycle = 1 then
          { p with
            status :=
              ((p.status.reset_vblank_status).set_sprite_zero_hit false).set_sprite_overflow false
            nmi_interrupt := none
            suppress_vbl := false
            sprite_shifter_pattern_lo := fun _ => 0
            sprite_shifter_pattern_hi := fun _ => 0 }
        else p
      let p ← fetch_internal_registers p
      if p.cycle = 256 then some (increment_y p) else some p
    else if p.cycle = 257 then some (transfer_x p)
    else if 280 ≤ p.cycle ∧ p.cycle ≤ 304 then some (transfer_y p)
    else if 321 ≤ p.cycle ∧ p.cycle ≤ 336 then
      fetch_internal_registers (update_shift_registers p)
    else if p.cycle = 337 then do
      let _ ← fetch_nametable_byte p
      some p
    else if p.cycle = 339 then do
      let _ ← fetch_nametable_byte p
      if p.mask.rendering_enabled ∧ p.odd_frame then some { p with cycle := 340 } else some p
    else some p
  | .visible =>
    if p.cycle ≤ 256 then do
      let p := update_shift_registers p
      let p ← fetch_internal_registers p
      let p := if p.cycle = 256 then increment_y p else p
      render_pixel p
    else if p.cycle = 257 then
      some (sprite_evaluation (update_shift_registers (transfer_x p)))
    else if 321 ≤ p.cycle ∧ p.cycle ≤ 336 then
      fetch_internal_registers (update_shift_registers p)
    else if p.cycle = 337 ∨ p.cycle = 339 then do
      let _ ← fetch_nametable_byte p
      some p
    else if p.cycle = 340 then load_sprites p
    else some p
  | .postRender => some p
  | .vblank =>
    if p.cycle = 1 then
      if p.scanline = 241 then
        if !p.suppress_vbl then
          let p := { p with status := p.status.set_vblank_status true }
          if p.ctrl.generate_vblank_nmi then some { p with nmi_interrupt := some 1 }
          else some p
        else some p
      else some p
    else some p

/-- PPU::tick: run the per-dot step, then advance the (cycle, scanline)
counters; the returned Bool is the frame-complete flag. -/
def ppu_tick (p : PPU) : Option (Bool × PPU) := do
  let sl ← scanline_from p.scanline
  let p ← ppu_tick_step p sl
  let p := { p with cycle := p.cycle + 1 }
  if p.cycle > 340 then
    let p := { p with cycle := 0, scanline := p.scanline + 1 }
    if p.scanline > 261 then
      some (true, { p with scanline := 0
                           frame_count := p.frame_count + 1
                           odd_frame := !p.odd_frame })
    else some (false, p)
  else some (false, p)

/-! ## Helper lemmas about the PPU port functions -/

/-- Unfolding of ppu_cpu_read at the PPUDATA port. -/
lemma ppu_cpu_read_PPUDATA (p : PPU) :
    ppu_cpu_read p 0x2007 =
      (if 0x3F00 ≤ p.v &&& 0x3fff then do
        let a ← mirror_nametable (increment_vram_addr p) (p.v &&& 0x3fff)
        let r ← ppu_mem_read
          { increment_vram_addr p with vram_buffer := (increment_vram_addr p).vram a }
          (p.v &&& 0x3fff)
        some (r, { increment_vram_addr p with vram_buffer := (increment_vram_addr p).vram a })
      else do
        let nv ← ppu_mem_read (increment_vram_addr p) (p.v &&& 0x3fff)
        some ((increment_vram_addr p).vram_buffer,
          { increment_vram_addr p with vram_buffer := nv })) := by
  rw [ppu_cpu_read.eq_def]
  norm_num

/-- Unfolding of ppu_cpu_write at the PPUDATA port. -/
lemma ppu_cpu_write_PPUDATA (p : PPU) (d : Nat) :
    ppu_cpu_write p 0x2007 d =
      (do
        let q ← ppu_mem_write { p with data_bus := d } (p.v &&& 0x3fff) d
        if q.mask.show_background ∧ (q.scanline < 240 ∨ q.scanline = 261) then
          some (increment_y (increment_x q))
        else some (increment_vram_addr q)) := by
  rw [ppu_cpu_write.eq_def]
  norm_num

/-- Monadic bind on Option yields some iff the first step yields some
and the continuation does. -/
lemma bind_eq_some_iff {α β : Type} (x : Option α) (f : α → Option β) (b : β) :
    (x >>= f) = some b ↔ ∃ a, x = some a ∧ f a = some b := by
  cases x <;> simp

/-- ppu_mem_write never touches v, the mask, the scanline or ctrl. -/
lemma ppu_mem_write_state (p : PPU) (a d : Nat) (q : PPU)
    (h : ppu_mem_write p a d = some q) :
    q.v = p.v ∧ q.mask = p.mask ∧ q.scanline = p.scanline ∧ q.ctrl = p.ctrl := by
  unfold ppu_mem_write at h
  split_ifs at h
  · simp only [bind_eq_some_iff, Option.some.injEq] at h
    obtain ⟨x1, hx1, x2, hx2, h⟩ := h
    subst h
    exact ⟨rfl, rfl, rfl, rfl⟩
  · simp only [bind_eq_some_iff, Option.some.injEq] at h
    obtain ⟨x1, hx1, h⟩ := h
    subst h
    exact ⟨rfl, rfl, rfl, rfl⟩
  · simp only [Option.some.injEq] at h
    subst h
    exact ⟨rfl, rfl, rfl, rfl⟩

/-- increment_x does not change the mask. -/
lemma increment_x_mask (p : PPU) : (increment_x p).mask = p.mask := by
  simp only [increment_x]
  split_ifs <;> rfl

/-- The v produced by increment_x depends only on v and the mask. -/
lemma increment_x_v_of_eq (p q : PPU) (hv : p.v = q.v) (hm : p.mask = q.mask) :
    (increment_x p).v = (increment_x q).v := by
  simp only [increment_x, hv, hm]
  split_ifs <;> simp [hv]

/-- The v produced by increment_y depends only on v and the mask. -/
lemma increment_y_v_of_eq (p q : PPU) (hv : p.v = q.v) (hm : p.mask = q.mask) :
    (increment_y p).v = (increment_y q).v := by
  simp only [increment_y, hv, hm]
  split_ifs <;> simp [hv]

/-! ## C7: palette index mirroring -/

/-- C7: every palette access lands on an index below 0x20, the indices
0x10/0x14/0x18/0x1C alias down by 0x10, and for each k < 4 a write
through PPU address 0x3F10 + 4k is read back at 0x3F00 + 4k and vice
versa. -/
theorem c7_palette_mirror (p : PPU) (a d : Nat)
    (ha1 : 0x3F00 ≤ a) (ha2 : a ≤ 0x3FFF) :
    mirror_palette a < 0x20 ∧
    ((a % 0x20 = 0x10 ∨ a % 0x20 = 0x14 ∨ a % 0x20 = 0x18 ∨ a % 0x20 = 0x1C) →
      mirror_palette a = a % 0x20 - 0x10) ∧
    (∀ k, k < 4 →
      ((ppu_mem_write p (0x3F10 + 4 * k) d).bind
          (fun q => ppu_mem_read q (0x3F00 + 4 * k)) = some d ∧
        (ppu_mem_write p (0x3F00 + 4 * k) d).bind
          (fun q => ppu_mem_read q (0x3F10 + 4 * k)) = some d)) := by
  refine ⟨?_, ?_, ?_⟩
  · simp only [mirror_palette]
    split_ifs <;> omega
  · intro h
    simp only [mirror_palette]
    split_ifs <;> omega
  · intro k hk
    interval_cases k <;>
      exact ⟨by simp [ppu_mem_write, ppu_mem_read, mirror_palette],
        by simp [ppu_mem_write, ppu_mem_read, mirror_palette]⟩

/-- C7 witness: the palette mirroring theorem at address 0x3F1C on a
fresh PPU. -/
theorem c7_palette_mirror_witness : mirror_palette 0x3F1C < 0x20 :=
  (c7_palette_mirror PPU.new 0x3F1C 0x42 (by norm_num) (by norm_num)).1

/-! ## C4: PPUDATA auto-increment -/

/-- A loaded NROM cartridge used by the concrete PPU states below. -/
def rom_nrom : RomM :=
  { mirroring := .vertical
    mapper := { chr_len := 8192, chr := fun _ => 0, prg_len := 16384, prg := fun _ => 0 } }

/-- A PPU with background rendering enabled, on visible scanline 0,
with v = 0x2000 and increment select 1. -/
def ppu_c4 : PPU := { PPU.new with rom := some rom_nrom, v := 0x2000, mask := ⟨0x08⟩ }

/-- C4 counterexample: a PPUDATA write during rendering (background
enabled, visible scanline) does not add the selected increment 1 to v:
it applies the coarse-x / y increments instead, taking v from 0x2000 to
0x3001 rather than 0x2001. -/
theorem c4_ppudata_counterexample :
    ppu_c4.ctrl.vram_addr_increment = 1 ∧ ppu_c4.v = 0x2000 ∧
    ppu_c4.mask.show_background = true ∧ ppu_c4.scanline = 0 ∧
    (ppu_cpu_write ppu_c4 0x2007 0x55).map (fun q => q.v) = some 0x3001 := by
  refine ⟨rfl, rfl, rfl, rfl, ?_⟩
  rw [ppu_cpu_write_PPUDATA]
  rfl

/-- C4 amended: a PPUDATA read always post-increments v by the selected
increment (1 or 32); a PPUDATA write does so only when not rendering
(background disabled, or scanline in 240..260): with background enabled
on a visible or pre-render scanline the write applies the coarse-x and
y scroll increments to v instead. Mirrors of 0x2007 in 0x2008..0x3FFF
behave identically to the port itself. -/
theorem c4_ppudata_increment (p : PPU) (d : Nat) :
    (∀ r p', ppu_cpu_read p 0x2007 = some (r, p') →
      p'.v = (p.v + p.ctrl.vram_addr_increment) % 65536) ∧
    (∀ p', ppu_cpu_write p 0x2007 d = some p' →
      (¬(p.mask.show_background = true ∧ (p.scanline < 240 ∨ p.scanline = 261)) →
        p'.v = (p.v + p.ctrl.vram_addr_increment) % 65536) ∧
      ((p.mask.show_background = true ∧ (p.scanline < 240 ∨ p.scanline = 261)) →
        p'.v = (increment_y (increment_x p)).v)) ∧
    (∀ a, 0x2008 ≤ a → a ≤ 0x3FFF → a &&& 0x2007 = 0x2007 →
      ppu_cpu_read p a = ppu_cpu_read p 0x2007 ∧
      ppu_cpu_write p a d = ppu_cpu_write p 0x2007 d) := by
  refine ⟨?_, ?_, ?_⟩
  · intro r p' h
    rw [ppu_cpu_read_PPUDATA] at h
    split_ifs at h with hpal <;>
      simp only [bind_eq_some_iff, Option.some.injEq, Prod.mk.injEq] at h
    · obtain ⟨a, ha, r2, hr2, hre, hp⟩ := h
      subst hp
      simp [increment_vram_addr]
    · obtain ⟨nv, hnv, hrr, hp⟩ := h
      subst hp
      simp [increment_vram_addr]
  · intro p' h
    rw [ppu_cpu_write_PPUDATA] at h
    rw [bind_eq_some_iff] at h
    obtain ⟨q, hq, h2⟩ := h
    obtain ⟨hqv, hqm, hqs, hqc⟩ := ppu_mem_write_state _ _ _ _ hq
    simp only [show ({ p with data_bus := d } : PPU).v = p.v from rfl,
      show ({ p with data_bus := d } : PPU).mask = p.mask from rfl,
      show ({ p with data_bus := d } : PPU).scanline = p.scanline from rfl,
      show ({ p with data_bus := d } : PPU).ctrl = p.ctrl from rfl] at hqv hqm hqs hqc
    constructor
    · intro hnr
      rw [if_neg (by rw [hqm, hqs]; exact hnr)] at h2
      simp only [Option.some.injEq] at h2
      subst h2
      simp [increment_vram_addr, hqv, hqc]
    · intro hr
      rw [if_pos (by rw [hqm, hqs]; exact hr)] at h2
      simp only [Option.some.injEq] at h2
      subst h2
      exact increment_y_v_of_eq _ _
        (increment_x_v_of_eq _ _ hqv hqm)
        (by rw [increment_x_mask, increment_x_mask, hqm])
  · intro a ha8 hale hm
    have e1 : (a = 0x2000) = False := eq_false (by omega)
    have e2 : (a = 0x2001) = False := eq_false (by omega)
    have e3 : (a = 0x2002) = False := eq_false (by omega)
    have e4 : (a = 0x2003) = False := eq_false (by omega)
    have e5 : (a = 0x2004) = False := eq_false (by omega)
    have e6 : (a = 0x2005) = False := eq_false (by omega)
    have e7 : (a = 0x2006) = False := eq_false (by omega)
    have e8 : (a = 0x2007) = False := eq_false (by omega)
    have e9 : (0x2008 ≤ a ∧ a ≤ 0x3FFF) = True := eq_true ⟨ha8, hale⟩
    constructor
    · rw [ppu_cpu_read.eq_def]
      split_ifs <;> first | omega | rw [hm]
    · rw [ppu_cpu_write.eq_def]
      simp only [e1, e2, e3, e4, e5, e6, e7, e8, e9, ite_false, dite_true]
      rw [hm]

/-- A fresh PPU with an NROM cartridge, rendering disabled, v = 0. -/
def ppu_c4w : PPU := { PPU.new with rom := some rom_nrom }

/-- The state ppu_c4w reaches after one PPUDATA read. -/
def ppu_c4w_after : PPU := { ppu_c4w with addr := ⟨1, true⟩, v := 1 }

/-- C4 witness: the amended PPUDATA theorem at a concrete PPU, whose
single PPUDATA read takes v from 0 to 1. -/
theorem c4_ppudata_increment_witness :
    ppu_c4w_after.v = (ppu_c4w.v + ppu_c4w.ctrl.vram_addr_increment) % 65536 :=
  (c4_ppudata_increment ppu_c4w 0x55).1 0 ppu_c4w_after
    (by rw [ppu_cpu_read_PPUDATA]; rfl)

/-! ## C8: sprite-zero-hit latch -/

/-- A PPU mid-frame at (scanline 100, cycle 10) with both rendering
bits on, the sprite-zero-hit status bit already set, an opaque
background pixel in the shifters, and an opaque pixel of a non-sprite-0
sprite at x = 0 in the secondary OAM. -/
def ppu_c8 : PPU :=
  { PPU.new with
    scanline := 100
    cycle := 10
    mask := ⟨0x18⟩
    status := ⟨0x40⟩
    bg_shifter_pattern_lo := 0x4000
    secondary_oam_data := [some { tile := 0, attr := 0, x := 0, y := 95, is_sprite_0 := false }]
    sprite_shifter_pattern_lo := fun _ => 0x40 }

/-- C8 is a code bug: one PPU tick at the visible dot (100, 10), where
a non-transparent pixel of a non-sprite-0 sprite coincides with a
non-transparent background pixel, clears the already-set sprite-zero-hit
status bit (render_pixel stores is_sprite_0 into the bit instead of
only ever setting it), long before dot 1 of scanline 261. -/
theorem c8_sprite_zero_hit_bug :
    ppu_c8.status.value &&& 0x40 = 0x40 ∧ ppu_c8.scanline = 100 ∧ ppu_c8.cycle = 10 ∧
    (ppu_tick ppu_c8).map
      (fun q => (q.1, q.2.scanline, q.2.cycle, q.2.status.value &&& 0x40)) =
      some (false, 100, 11, 0) := by
  exact ⟨rfl, rfl, rfl, rfl⟩

/-! ## Bus (src/nestor/src/bus.rs)

The Arc-Mutex mapper shared with the ROM is held as the Bus's own
Option Mapper copy (see RomM above); cpu_vram is a total function like
the other byte arrays. -/

structure Bus where
  cpu_vram : Nat → Nat
  ppu : PPU
  joypad1 : Joypad
  joypad2 : Joypad
  mapper : Option Mapper

/-- Bus::new (Joypad::new starts with strobe low, cursor and buttons
zero). -/
def Bus.new : Bus :=
  { cpu_vram := fun _ => 0
    ppu := PPU.new
    joypad1 := { strobe := false, button_index := 0, button_status := 0 }
    joypad2 := { strobe := false, button_index := 0, button_status := 0 }
    mapper := none }

/-- Bus::mem_read (the Memory impl); reads are effectful (PPU ports and
joypads), so the updated bus is returned; the mapper unwrap on a missing
cartridge is none. -/
def bus_mem_read (b : Bus) (addr : Nat) : Option (Nat × Bus) :=
  if addr ≤ 0x1FFF then some (b.cpu_vram (addr &&& 0b11111111111), b)
  else if addr ≤ 0x3FFF then do
    let rp ← ppu_cpu_read b.ppu addr
    some (rp.1, { b with ppu := rp.2 })
  else if addr ≤ 0x4015 then some (0, b)
  else if addr = 0x4016 then
    some ((joypad_read b.joypad1).1, { b with joypad1 := (joypad_read b.joypad1).2 })
  else if addr = 0x4017 then
    some ((joypad_read b.joypad2).1, { b with joypad2 := (joypad_read b.joypad2).2 })
  else if addr ≤ 0x5FFF then some (0, b)
  else if addr ≤ 0xFFFF then do
    let m ← b.mapper
    let r ← m.read addr
    some (r, b)
  else none

/-- One iteration's writes of Bus::dma_transfer: store the byte just
read at the current oam_addr and advance oam_addr with wrap. -/
def dma_step (vb : Nat × Bus) : Bus :=
  { vb.2 with ppu := { vb.2.ppu with
      oam_data := fun q => if q = vb.2.ppu.oam_addr then vb.1 else vb.2.ppu.oam_data q
      oam_addr := (vb.2.ppu.oam_addr + 1) % 256 } }

/-- The loop of Bus::dma_transfer, with fuel counting the remaining
iterations (the source iterates i from 0 to 255, so the top call passes
fuel 256 and i 0). -/
def dma_transfer_go (hi : Nat) : Nat → Nat → Bus → Option Bus
  | 0, _, b => some b
  | fuel + 1, i, b => do
    let vb ← bus_mem_read b (hi + i)
    dma_transfer_go hi fuel (i + 1) (dma_step vb)

/-- Bus::dma_transfer. -/
def dma_transfer (b : Bus) (data : Nat) : Option Bus :=
  dma_transfer_go (data <<< 8) 256 0 b

/-- Spec-side observer for C6: the list of bytes the DMA loop reads,
threading exactly the same intermediate bus states as the loop. -/
def dma_values (hi : Nat) : Nat → Nat → Bus → Option (List Nat)
  | 0, _, _ => some []
  | fuel + 1, i, b => do
    let vb ← bus_mem_read b (hi + i)
    let vs ← dma_values hi fuel (i + 1) (dma_step vb)
    some (vb.1 :: vs)

/-- Bus::mem_write; the panic arm (0x4018..0x5FFF) is none, and the
mapper unwrap on a missing cartridge is none. -/
def bus_mem_write (b : Bus) (addr data : Nat) : Option Bus :=
  if addr ≤ 0x1FFF then
    some { b with cpu_vram :=
      fun q => if q = (addr &&& 0b11111111111) then data else b.cpu_vram q }
  else if addr ≤ 0x3FFF then do
    let p ← ppu_cpu_write b.ppu addr data
    some { b with ppu := p }
  else if addr ≤ 0x4013 ∨ addr = 0x4015 then some b
  else if addr = 0x4016 then
    some { b with joypad1 := joypad_write b.joypad1 data
                  joypad2 := joypad_write b.joypad2 data }
  else if addr = 0x4017 then some b
  else if addr = 0x4014 then dma_transfer b data
  else if addr ≤ 0x5FFF then none
  else if addr ≤ 0xFFFF then do
    let m ← b.mapper
    let m2 ← m.write addr data
    some { b with mapper := some m2 }
  else none

/-- The loop of Bus::tick: run up to n PPU dots, stopping at the first
one that reports frame completion. -/
def bus_tick_loop : Nat → Bus → Option (Bool × Bus)
  | 0, b => some (false, b)
  | n + 1, b => do
    let fp ← ppu_tick b.ppu
    if fp.1 then some (true, { b with ppu := fp.2 })
    else bus_tick_loop n { b with ppu := fp.2 }

/-- Bus::tick; cycles is a u8 and cycles * 3 is computed in u8
arithmetic, so a product above 255 is a debug-mode overflow panic,
hence none. -/
def bus_tick (b : Bus) (cycles : Nat) : Option (Option Frame × Bus) :=
  if cycles * 3 ≤ 255 then do
    let fb ← bus_tick_loop (cycles * 3) b
    if fb.1 then some (some fb.2.ppu.frame, fb.2) else some (none, fb.2)
  else none

/-- Spec-side reference for C3: advance the PPU by exactly n dots,
recording whether any dot reported frame completion. -/
def ppu_run_dots : PPU → Nat → Option (Bool × PPU)
  | p, 0 => some (false, p)
  | p, n + 1 => do
    let fp ← ppu_tick p
    let fr ← ppu_run_dots fp.2 n
    some (fp.1 || fr.1, fr.2)

/-- One-step unfolding of ppu_run_dots. -/
lemma ppu_run_dots_succ (p : PPU) (n : Nat) :
    ppu_run_dots p (n + 1) =
      (do
        let fp ← ppu_tick p
        let fr ← ppu_run_dots fp.2 n
        some (fp.1 || fr.1, fr.2)) := rfl

/-- The tick loop either runs all n dots without completion, or stops
at the first completing dot k + 1 ≤ n. -/
lemma bus_tick_loop_spec : ∀ n b r, bus_tick_loop n b = some r →
    (r.1 = false → ppu_run_dots b.ppu n = some (false, r.2.ppu)) ∧
    (r.1 = true → ∃ k, k < n ∧ ppu_run_dots b.ppu (k + 1) = some (true, r.2.ppu)) := by
  intro n
  induction n with
  | zero =>
    intro b r h
    simp only [bus_tick_loop, Option.some.injEq] at h
    subst h
    exact ⟨fun _ => rfl, fun hc => Bool.noConfusion hc⟩
  | succ n ih =>
    intro b r h
    simp only [bus_tick_loop] at h
    rw [bind_eq_some_iff] at h
    obtain ⟨⟨f1, fp2⟩, hfp, h⟩ := h
    cases f1
    · rw [if_neg (by simp)] at h
      have hrec : (r.1 = false → ppu_run_dots fp2 n = some (false, r.2.ppu)) ∧
          (r.1 = true → ∃ k, k < n ∧ ppu_run_dots fp2 (k + 1) = some (true, r.2.ppu)) :=
        ih _ _ h
      constructor
      · intro h1
        have h2 := hrec.1 h1
        simp [ppu_run_dots, hfp, h2]
      · intro h1
        obtain ⟨k, hk, hrun⟩ := hrec.2 h1
        exact ⟨k + 1, by omega, by rw [ppu_run_dots_succ, hfp]; simp [hrun]⟩
    · rw [if_pos (by simp)] at h
      simp only [Option.some.injEq] at h
      subst h
      refine ⟨fun hc => Bool.noConfusion hc, fun _ => ⟨0, Nat.succ_pos n, ?_⟩⟩
      simp [ppu_run_dots, hfp]

/-! ## C3: Bus::tick vs exact 3-dot advance -/

/-- A bus whose PPU sits at the last dot of the pre-render scanline, so
the very next dot completes the frame. -/
def bus_c3 : Bus :=
  { Bus.new with ppu := { PPU.new with rom := some rom_nrom, scanline := 261, cycle := 340 } }

/-- C3 counterexample: with the PPU one dot from the frame boundary,
Bus::tick(1) returns the finished frame but advances the PPU only one
dot (to scanline 0, cycle 0), not the claimed exactly 3 dots (which
would reach cycle 2); and Bus::tick(86) panics outright because
cycles * 3 overflows the u8. -/
theorem c3_bus_tick_counterexample :
    (bus_tick bus_c3 1).map (fun r => (r.1.isSome, r.2.ppu.scanline, r.2.ppu.cycle)) =
      some (true, 0, 0) ∧
    (ppu_run_dots bus_c3.ppu 3).map (fun q => (q.2.scanline, q.2.cycle)) = some (0, 2) ∧
    bus_tick Bus.new 86 = none := by
  exact ⟨rfl, rfl, rfl⟩

/-- C3 amended: for cycles ≤ 85 (above that the u8 product cycles * 3
panics), tick advances the PPU by exactly cycles * 3 dots and returns
no frame when no dot completes a frame; when a dot completes the frame,
tick returns that frame but stops at the completing dot k + 1 ≤
cycles * 3 instead of finishing the interval. -/
theorem c3_bus_tick_amended (b : Bus) (c : Nat) (hc : c ≤ 85)
    (r : Option Frame × Bus) (h : bus_tick b c = some r) :
    (r.1 = none → ppu_run_dots b.ppu (c * 3) = some (false, r.2.ppu)) ∧
    (∀ f, r.1 = some f → f = r.2.ppu.frame ∧
      ∃ k, k < c * 3 ∧ ppu_run_dots b.ppu (k + 1) = some (true, r.2.ppu)) := by
  unfold bus_tick at h
  rw [if_pos (by omega)] at h
  rw [bind_eq_some_iff] at h
  obtain ⟨fb, hfb, h2⟩ := h
  have hspec := bus_tick_loop_spec (c * 3) b fb hfb
  by_cases hf : fb.1 = true
  · rw [if_pos hf] at h2
    simp only [Option.some.injEq] at h2
    subst h2
    refine ⟨fun h1 => Option.noConfusion h1, fun f hfe => ?_⟩
    simp only [Option.some.injEq] at hfe
    exact ⟨hfe.symm, hspec.2 hf⟩
  · rw [if_neg hf] at h2
    simp only [Option.some.injEq] at h2
    subst h2
    have hf2 : fb.1 = false := by revert hf; cases fb.1 <;> simp
    exact ⟨fun _ => hspec.1 hf2, fun f hfe => Option.noConfusion hfe⟩

/-- A bus with a cartridge, three dots from nothing special: no frame
completes during one CPU cycle. -/
def bus_c3w : Bus := { Bus.new with ppu := { PPU.new with rom := some rom_nrom } }

/-- The result of Bus::tick(1) on bus_c3w. -/
def c3w_result : Option Frame × Bus := (bus_tick bus_c3w 1).getD (none, bus_c3w)

/-- C3 witness: the amended tick theorem at a concrete bus, whose
tick(1) completes no frame and lands exactly where 3 bare PPU dots
land. -/
theorem c3_bus_tick_amended_witness :
    ppu_run_dots bus_c3w.ppu 3 = some (false, c3w_result.2.ppu) :=
  (c3_bus_tick_amended bus_c3w 1 (by norm_num) c3w_result rfl).1 rfl

/-! ## C6: OAM DMA -/

/-- ppu_cpu_read never changes oam_addr or oam_data. -/
lemma ppu_cpu_read_oam : ∀ a p rp, ppu_cpu_read p a = some rp →
    rp.2.oam_addr = p.oam_addr ∧ rp.2.oam_data = p.oam_data := by
  intro a
  induction a using Nat.strong_induction_on with
  | _ a ih =>
    intro p rp h
    by_cases hA : a = 0x2000 ∨ a = 0x2001 ∨ a = 0x2003 ∨ a = 0x2005 ∨ a = 0x2006
    · rw [ppu_cpu_read.eq_def, if_pos hA] at h
      simp only [Option.some.injEq] at h
      subst h
      exact ⟨rfl, rfl⟩
    · by_cases hB : a = 0x2002
      · rw [ppu_cpu_read.eq_def, if_neg hA, if_pos hB] at h
        simp only [Option.some.injEq] at h
        subst h
        constructor <;> simp [apply_ite]
      · by_cases hC : a = 0x2004
        · rw [ppu_cpu_read.eq_def, if_neg hA, if_neg hB, if_pos hC] at h
          simp only [Option.some.injEq] at h
          subst h
          exact ⟨rfl, rfl⟩
        · by_cases hD : a = 0x2007
          · subst hD
            rw [ppu_cpu_read_PPUDATA] at h
            split_ifs at h with hpal <;>
              simp only [bind_eq_some_iff, Option.some.injEq] at h
            · obtain ⟨x1, hx1, x2, hx2, hp⟩ := h
              subst hp
              exact ⟨rfl, rfl⟩
            · obtain ⟨x1, hx1, hp⟩ := h
              subst hp
              exact ⟨rfl, rfl⟩
          · by_cases hE : 0x2008 ≤ a ∧ a ≤ 0x3FFF
            · rw [ppu_cpu_read.eq_def, if_neg hA, if_neg hB, if_neg hC, if_neg hD,
                dif_pos hE] at h
              exact ih (a &&& 0x2007)
                (by have h2 : a &&& 0x2007 ≤ 0x2007 := Nat.and_le_right; omega) p rp h
            · rw [ppu_cpu_read.eq_def, if_neg hA, if_neg hB, if_neg hC, if_neg hD,
                dif_neg hE] at h
              simp only [Option.some.injEq] at h
              subst h
              exact ⟨rfl, rfl⟩

/-- Bus::mem_read never changes the PPU's oam_addr or oam_data. -/
lemma bus_mem_read_oam (b : Bus) (a : Nat) (vb : Nat × Bus)
    (h : bus_mem_read b a = some vb) :
    vb.2.ppu.oam_addr = b.ppu.oam_addr ∧ vb.2.ppu.oam_data = b.ppu.oam_data := by
  unfold bus_mem_read at h
  split_ifs at h
  all_goals
    first
      | (simp only [Option.some.injEq] at h
         subst h
         exact ⟨rfl, rfl⟩)
      | (simp only [bind_eq_some_iff, Option.some.injEq] at h
         first
           | (obtain ⟨x1, hx1, x2, hx2, hp⟩ := h
              subst hp
              exact ⟨rfl, rfl⟩)
           | (obtain ⟨x1, hx1, hp⟩ := h
              subst hp
              obtain ⟨h1, h2⟩ := ppu_cpu_read_oam a b.ppu x1 hx1
              exact ⟨h1, h2⟩))

lemma dma_step_oam_addr (vb : Nat × Bus) :
    (dma_step vb).ppu.oam_addr = (vb.2.ppu.oam_addr + 1) % 256 := rfl

lemma dma_step_oam_data (vb : Nat × Bus) :
    (dma_step vb).ppu.oam_data =
      fun q => if q = vb.2.ppu.oam_addr then vb.1 else vb.2.ppu.oam_data q := rfl

/-- The DMA loop invariant: a successful run of the last fuel
iterations reads the byte list given by dma_values, writes byte k of it
at oam_addr + k (mod 256), leaves every other OAM cell unchanged, and
advances oam_addr by fuel mod 256. -/
lemma dma_go_spec (hi : Nat) : ∀ fuel, fuel ≤ 256 → ∀ i b b'',
    b.ppu.oam_addr < 256 →
    dma_transfer_go hi fuel i b = some b'' →
    ∃ vs, dma_values hi fuel i b = some vs ∧ vs.length = fuel ∧
      b''.ppu.oam_addr = (b.ppu.oam_addr + fuel) % 256 ∧
      (∀ k, k < fuel → b''.ppu.oam_data ((b.ppu.oam_addr + k) % 256) = vs.getD k 0) ∧
      (∀ q, (∀ k, k < fuel → q ≠ (b.ppu.oam_addr + k) % 256) →
        b''.ppu.oam_data q = b.ppu.oam_data q) := by
  intro fuel
  induction fuel with
  | zero =>
    intro _ i b b'' hoam h
    simp only [dma_transfer_go, Option.some.injEq] at h
    subst h
    exact ⟨[], rfl, rfl, by omega, fun k hk => absurd hk (by omega), fun q _ => rfl⟩
  | succ fuel ih =>
    intro hle i b b'' hoam h
    simp only [dma_transfer_go] at h
    rw [bind_eq_some_iff] at h
    obtain ⟨vb, hvb, h⟩ := h
    obtain ⟨hpa, hpd⟩ := bus_mem_read_oam b (hi + i) vb hvb
    have hstep : (dma_step vb).ppu.oam_addr < 256 := by
      rw [dma_step_oam_addr]
      exact Nat.mod_lt _ (by norm_num)
    obtain ⟨vs, hvs, hlen, haddr, hvals, hout⟩ := ih (by omega) (i + 1) (dma_step vb) b'' hstep h
    refine ⟨vb.1 :: vs, ?_, by simp [hlen], ?_, ?_, ?_⟩
    · simp only [dma_values]
      rw [bind_eq_some_iff]
      exact ⟨vb, hvb, by rw [bind_eq_some_iff]; exact ⟨vs, hvs, rfl⟩⟩
    · rw [haddr, dma_step_oam_addr, hpa]
      omega
    · intro k hk
      cases k with
      | zero =>
        have hq0 : (b.ppu.oam_addr + 0) % 256 = b.ppu.oam_addr := by omega
        rw [hq0]
        have huntouch := hout b.ppu.oam_addr ?_
        · rw [huntouch, dma_step_oam_data]
          simp [hpa]
        · intro j hj
          rw [dma_step_oam_addr, hpa]
          omega
      | succ j =>
        have hj := hvals j (by omega)
        rw [dma_step_oam_addr, hpa] at hj
        have hpos : ((b.ppu.oam_addr + 1) % 256 + j) % 256 =
            (b.ppu.oam_addr + (j + 1)) % 256 := by omega
        rw [hpos] at hj
        simpa using hj
    · intro q hq
      have h1 : q ≠ b.ppu.oam_addr := by
        have h0 := hq 0 (by omega)
        omega
      have h2 := hout q ?_
      · rw [h2, dma_step_oam_data]
        simp [hpa, h1, hpd]
      · intro j hj
        have := hq (j + 1) (by omega)
        rw [dma_step_oam_addr, hpa]
        omega

/-- C6: a CPU write of a page byte to 0x4014 runs a 256-byte DMA: the
loop reads bytes i = 0..255 from CPU addresses page<<8 + i (with the
side effects those reads have), stores byte i into OAM at
oam_addr + i mod 256, and afterwards oam_addr is exactly back where it
started. -/
theorem c6_dma_transfer (b : Bus) (data : Nat) (b' : Bus)
    (hdata : data < 256) (hoam : b.ppu.oam_addr < 256)
    (h : bus_mem_write b 0x4014 data = some b') :
    ∃ vs, dma_values (data <<< 8) 256 0 b = some vs ∧ vs.length = 256 ∧
      b'.ppu.oam_addr = b.ppu.oam_addr ∧
      (∀ i, i < 256 → b'.ppu.oam_data ((b.ppu.oam_addr + i) % 256) = vs.getD i 0) := by
  have hd : bus_mem_write b 0x4014 data = dma_transfer b data := by
    unfold bus_mem_write
    norm_num
  rw [hd] at h
  unfold dma_transfer at h
  obtain ⟨vs, hvs, hlen, haddr, hvals, _⟩ :=
    dma_go_spec (data <<< 8) 256 (by omega) 0 b b' hoam h
  refine ⟨vs, hvs, hlen, ?_, hvals⟩
  rw [haddr]
  omega

/-- The bus state after a DMA from page 0 on a fresh bus. -/
def bus_c6_after : Bus := (bus_mem_write Bus.new 0x4014 0).getD Bus.new

/-- C6 witness: the DMA theorem at a fresh bus and page 0; the net
oam_addr change is zero. -/
theorem c6_dma_transfer_witness :
    bus_c6_after.ppu.oam_addr = Bus.new.ppu.oam_addr :=
  (c6_dma_transfer Bus.new 0 bus_c6_after (by norm_num) (by decide) rfl).choose_spec.2.2.1

end Nestor
